import Mathlib

/-!
Verification of the multi-stage inference pipeline of the Public Complaint &
RTI Generator backend.

The development shallowly embeds the Python sources:
* `backend/app/services/rule_engine/intent_rules.py` (keyword rule matcher),
* `backend/app/services/rule_engine/legal_triggers.py` (legal trigger detector),
* `backend/app/services/nlp/confidence_gate.py` (confidence gate),
* `backend/app/services/nlp/distilbert_semantic.py` (similarity clamp),
* `backend/app/services/inference_orchestrator.py` (pipeline orchestrator),
* `backend/app/services/llm/text_enhancer.py` (placeholder-preserving enhancer),
* `backend/app/services/authority_resolver.py` (issue-to-authority resolver).

Confidence scores are modelled as exact rationals (the Python code uses
floats; every constant in the code is a short decimal, and all comparisons
proved here are far from float-rounding boundaries unless noted).  Text is
modelled as `List Char` with ASCII case folding, matching the ASCII keyword
dictionaries of the source.  Outputs of the external ML models (spaCy NER,
the DistilBERT embedding model, the OpenAI enhancer) are parameters of the
embedding - the repository calls them through library APIs, and no claim
depends on their values beyond the clamping performed by repository code.
-/

namespace RTIGen

/-! ## Text primitives (Python string semantics on ASCII text) -/

/-- Python regex word character `\w` restricted to ASCII: letters, digits, underscore. -/
def isWordChar (c : Char) : Bool := c.isAlphanum || c = '_'

/-- The Python whitespace class (`str.split`, `str.strip`, `\s`) on ASCII. -/
def isPySpace (c : Char) : Bool :=
  c = ' ' || c = '\t' || c = '\n' || c = '\x0d' || c = '\x0b' || c = '\x0c'

/-- Lowercase a text, as Python `str.lower()` does on ASCII input. -/
def lowerStr (t : List Char) : List Char := t.map Char.toLower

/-- The characters of `t` starting at index `i` are exactly `pat`. -/
def substrAt (pat t : List Char) (i : ℕ) : Bool :=
  decide ((t.drop i).take pat.length = pat)

/-- Whether the character at index `j` of `t` is a word character (out of range: no). -/
def wordAt (t : List Char) (j : ℕ) : Bool :=
  match t[j]? with
  | some c => isWordChar c
  | none => false

/-- Python regex `\b`: a word boundary sits between positions `i-1` and `i`
exactly when word-character-ness changes there (positions outside the text
count as non-word). -/
def boundaryAt (t : List Char) (i : ℕ) : Bool :=
  (if i = 0 then false else wordAt t (i - 1)) != wordAt t i

/-- Match of a keyword at index `i` of the text.  `_find_keyword_matches`
compiles single words (no space) to `\b kw \b` and multi-word phrases to a
plain literal pattern. -/
def kwMatchAt (kw t : List Char) (single : Bool) (i : ℕ) : Bool :=
  substrAt kw t i && (!single || (boundaryAt t i && boundaryAt t (i + kw.length)))

/-- Left-to-right non-overlapping scan, as `re.finditer` performs for the
literal patterns built by `_find_keyword_matches`.  `fuel` bounds the
recursion; `t.length + 1` is always sufficient for non-empty keywords. -/
def scanPositions (kw t : List Char) (single : Bool) : ℕ → ℕ → List ℕ
  | 0, _ => []
  | fuel+1, i =>
    if t.length < i + kw.length then []
    else if kwMatchAt kw t single i then i :: scanPositions kw t single fuel (i + kw.length)
    else scanPositions kw t single fuel (i + 1)

/-- All match positions of keyword `kw` in text `t`
(`re.finditer(pattern, text_lower)` of `_find_keyword_matches`). -/
def kwPositions (kw : String) (t : List Char) : List ℕ :=
  scanPositions kw.data (lowerStr t) (!kw.data.contains ' ') (t.length + 1) 0

/-- Python substring test `pat in t` (for non-empty `pat`). -/
def containsSub (pat t : List Char) : Bool :=
  (List.range (t.length + 1)).any fun i => substrAt pat t i

/-- Python `str.split()` : split on runs of whitespace, dropping empties. -/
def splitWsAux : List Char → List Char → List (List Char)
  | [], acc => if acc.isEmpty then [] else [acc.reverse]
  | c :: cs, acc =>
    if isPySpace c then
      (if acc.isEmpty then splitWsAux cs [] else acc.reverse :: splitWsAux cs [])
    else splitWsAux cs (c :: acc)

def splitWs (t : List Char) : List (List Char) := splitWsAux t []

/-- Python `str.strip()` : drop leading and trailing whitespace. -/
def stripWs (t : List Char) : List Char :=
  ((t.dropWhile isPySpace).reverse.dropWhile isPySpace).reverse

/-- Python `str.title()` on ASCII: a letter is uppercased when the previous
character is not a letter, lowercased otherwise. -/
def pyTitleAux : List Char → Bool → List Char
  | [], _ => []
  | c :: cs, prevAlpha =>
    (if c.isAlpha then (if prevAlpha then c.toLower else c.toUpper) else c)
      :: pyTitleAux cs c.isAlpha

def pyTitle (t : List Char) : List Char := pyTitleAux t false

/-- Python `str.replace(pat, rep)` for non-empty `pat` (all occurrences,
left to right, non-overlapping).  `fuel = t.length + 1` always suffices. -/
def replaceSubAux (pat rep : List Char) : ℕ → List Char → List Char
  | 0, t => t
  | fuel+1, t =>
    if substrAt pat t 0 && !pat.isEmpty then
      rep ++ replaceSubAux pat rep fuel (t.drop pat.length)
    else
      match t with
      | [] => []
      | c :: cs => c :: replaceSubAux pat rep fuel cs

def replaceAll (t pat rep : List Char) : List Char :=
  replaceSubAux pat rep (t.length + 1) t

/-- Maximum of a list of rationals, Python `max(xs)` for non-empty `xs`
(`0` for the empty list, matching the `if rti_scores else 0` guards). -/
def listMaxQ : List ℚ → ℚ
  | [] => 0
  | x :: xs => xs.foldl max x

/-! ## Rule engine: `intent_rules.py` -/

/-- `IntentType` of `intent_rules.py` (six values). -/
inductive IntentType where
  | rti
  | complaint
  | appeal
  | followUp
  | escalation
  | unknown
deriving DecidableEq

/-- `DocumentSubType` of `intent_rules.py`. -/
inductive DocumentSubType where
  | informationRequest
  | recordsRequest
  | inspectionRequest
  | grievance
  | corruptionComplaint
  | serviceComplaint
  | firstAppeal
  | secondAppeal
  | general
deriving DecidableEq

/-- `IntentMatch` dataclass: one keyword occurrence. -/
structure IntentMatch where
  keyword : String
  category : String
  weight : ℚ
  position : ℕ
deriving DecidableEq

/-- `RTI_KEYWORDS` weight table. -/
def RTI_KEYWORDS : List (String × ℚ) :=
  [("right to information", 0.3), ("rti", 0.3), ("section 6", 0.3), ("rti act", 0.3),
   ("information act 2005", 0.3),
   ("public information officer", 0.2), ("pio", 0.2), ("information request", 0.2),
   ("certified copies", 0.2), ("official records", 0.2), ("public authority", 0.2),
   ("information", 0.1), ("records", 0.1), ("documents", 0.1), ("copies", 0.1),
   ("inspection", 0.1), ("disclosure", 0.1)]

/-- `COMPLAINT_KEYWORDS` weight table. -/
def COMPLAINT_KEYWORDS : List (String × ℚ) :=
  [("complaint", 0.3), ("grievance", 0.3), ("pgportal", 0.3), ("public grievance", 0.3),
   ("harassment", 0.2), ("corruption", 0.2), ("bribe", 0.2), ("negligence", 0.2),
   ("misconduct", 0.2), ("fraud", 0.2), ("delay in service", 0.2),
   ("problem", 0.1), ("issue", 0.1), ("not working", 0.1), ("broken", 0.1),
   ("damaged", 0.1), ("poor service", 0.1), ("unsatisfactory", 0.1)]

/-- `APPEAL_KEYWORDS` weight table. -/
def APPEAL_KEYWORDS : List (String × ℚ) :=
  [("first appeal", 0.3), ("second appeal", 0.3), ("appeal under section 19", 0.3),
   ("appellate authority", 0.3), ("information commission", 0.3),
   ("appeal", 0.2), ("review", 0.2), ("reconsider", 0.2), ("rejected", 0.2),
   ("denial", 0.2), ("refusal", 0.2),
   ("not satisfied", 0.1), ("incomplete information", 0.1), ("wrong information", 0.1)]

/-- `FOLLOW_UP_KEYWORDS` weight table. -/
def FOLLOW_UP_KEYWORDS : List (String × ℚ) :=
  [("follow up", 0.3), ("follow-up", 0.3), ("status", 0.2), ("pending application", 0.2),
   ("application status", 0.2), ("reminder", 0.2), ("no response", 0.2),
   ("waiting", 0.1), ("since", 0.1), ("months", 0.1)]

/-- `ESCALATION_KEYWORDS` weight table. -/
def ESCALATION_KEYWORDS : List (String × ℚ) :=
  [("escalate", 0.3), ("escalation", 0.3), ("higher authority", 0.3),
   ("chief secretary", 0.2), ("minister", 0.2), ("commissioner", 0.2),
   ("no action taken", 0.2), ("ignored", 0.1), ("unanswered", 0.1)]

/-- `_find_keyword_matches`: all matches of a weight table in the text. -/
def findKeywordMatches (keywords : List (String × ℚ)) (category : String)
    (t : List Char) : List IntentMatch :=
  keywords.flatMap fun p => (kwPositions p.1 t).map fun i => ⟨p.1, category, p.2, i⟩

/-- `_calculate_weighted_score`: `0` on no matches, otherwise the weight sum
plus a match-count bonus (capped at `0.1`), offset by `0.4`, capped at `0.95`. -/
def calculateWeightedScore (ms : List IntentMatch) : ℚ :=
  if ms.isEmpty then 0
  else
    let totalWeight := (ms.map (·.weight)).sum
    let matchBonus := min 0.1 ((ms.length : ℚ) * 0.02)
    min 0.95 (0.4 + totalWeight + matchBonus)

/-- One row of the score dictionary built in `classify_intent_detailed`. -/
structure ScoredIntent where
  intent : IntentType
  score : ℚ
  ms : List IntentMatch
deriving DecidableEq

/-- The five-row score table of `classify_intent_detailed`, in the source's
dictionary insertion order. -/
def scoreTable (text : String) : List ScoredIntent :=
  let t := text.data
  let rtiM := findKeywordMatches RTI_KEYWORDS "rti" t
  let complaintM := findKeywordMatches COMPLAINT_KEYWORDS "complaint" t
  let appealM := findKeywordMatches APPEAL_KEYWORDS "appeal" t
  let followUpM := findKeywordMatches FOLLOW_UP_KEYWORDS "follow_up" t
  let escalationM := findKeywordMatches ESCALATION_KEYWORDS "escalation" t
  [⟨.rti, calculateWeightedScore rtiM, rtiM⟩,
   ⟨.complaint, calculateWeightedScore complaintM, complaintM⟩,
   ⟨.appeal, calculateWeightedScore appealM, appealM⟩,
   ⟨.followUp, calculateWeightedScore followUpM, followUpM⟩,
   ⟨.escalation, calculateWeightedScore escalationM, escalationM⟩]

/-- Python `max(scores.keys(), key=...)` keeps the first row and replaces it
only on a strictly larger score. -/
def pickBest (xs : List ScoredIntent) (x : ScoredIntent) : ScoredIntent :=
  xs.foldl (fun acc y => if acc.score < y.score then y else acc) x

/-- Best-scoring row of the score table (the table always has five rows;
the empty case is unreachable). -/
def bestScored (text : String) : ScoredIntent :=
  match scoreTable text with
  | [] => ⟨IntentType.unknown, 0, []⟩
  | x :: xs => pickBest xs x

/-- The five raw category scores. -/
def rawScores (text : String) : List ℚ := (scoreTable text).map (·.score)

/-- The best raw category score. -/
def bestRawScore (text : String) : ℚ := listMaxQ (rawScores text)

/-- The second-best raw category score (best of the list with one occurrence
of the best removed). -/
def secondRawScore (text : String) : ℚ :=
  listMaxQ ((rawScores text).erase (bestRawScore text))

/-- `SUB_TYPE_INDICATORS` (only the lists consulted by `_determine_sub_type`). -/
def INSPECTION_INDICATORS : List String :=
  ["inspect", "inspection", "examine", "view", "access to files"]

def RECORDS_INDICATORS : List String :=
  ["copies of", "certified copies", "attested copies", "documents related",
   "records of", "files"]

def INFORMATION_INDICATORS : List String :=
  ["seeking information", "want to know", "provide information", "what is",
   "how much", "list of", "details of"]

def CORRUPTION_INDICATORS : List String :=
  ["bribe", "corruption", "illegal payment", "extortion", "demanded money",
   "asked for bribe"]

def SERVICE_INDICATORS : List String :=
  ["poor service", "bad service", "not working", "broken", "delay", "pending",
   "waiting"]

def SECOND_APPEAL_INDICATORS : List String :=
  ["second appeal", "information commission", "cic", "sic"]

/-- Whether any indicator is a substring of the lowercased text. -/
def anyIndicator (inds : List String) (tl : List Char) : Bool :=
  inds.any fun s => containsSub s.data tl

/-- `_determine_sub_type`. -/
def determineSubType (t : List Char) (intent : IntentType) : DocumentSubType :=
  let tl := lowerStr t
  match intent with
  | .rti =>
    if anyIndicator INSPECTION_INDICATORS tl then .inspectionRequest
    else if anyIndicator RECORDS_INDICATORS tl then .recordsRequest
    else if anyIndicator INFORMATION_INDICATORS tl then .informationRequest
    else .informationRequest
  | .complaint =>
    if anyIndicator CORRUPTION_INDICATORS tl then .corruptionComplaint
    else if anyIndicator SERVICE_INDICATORS tl then .serviceComplaint
    else .grievance
  | .appeal =>
    if anyIndicator SECOND_APPEAL_INDICATORS tl then .secondAppeal
    else .firstAppeal
  | _ => .general

/-- Audit-trail entries appended by `classify_intent_detailed`, one
constructor per `decision_path.append` site (the source appends formatted
strings; the tags carry the interpolated data). -/
inductive RulePathStep where
  | foundMatches (category : String) (n : ℕ)
  | bestIntentIs (i : IntentType) (score : ℚ)
  | ambiguousPair (s0 s1 : ℚ)
  | scoreTooLow
  | subTypeDetermined (s : DocumentSubType)
  | nlpRecommended
deriving DecidableEq

/-- `IntentResult` dataclass. -/
structure IntentResult where
  intent : IntentType
  subType : DocumentSubType
  confidence : ℚ
  ms : List IntentMatch
  decisionPath : List RulePathStep
  requiresNlp : Bool
deriving DecidableEq

/-- Rendering of the intent enum (`IntentType.value` in the source). -/
def IntentType.value : IntentType → String
  | .rti => "rti"
  | .complaint => "complaint"
  | .appeal => "appeal"
  | .followUp => "follow_up"
  | .escalation => "escalation"
  | .unknown => "unknown"

/-- The high-score list of the ambiguity check of `classify_intent_detailed`:
category scores above `0.5`, sorted descending (the source sorts the
(intent, score) pairs; only the score components are consulted downstream,
so the scores alone are sorted here). -/
def highScoresOf (text : String) : List ℚ :=
  List.insertionSort (fun a b : ℚ => b ≤ a)
    (((scoreTable text).filter fun s => decide ((0.5 : ℚ) < s.score)).map (·.score))

/-- The ambiguity condition: at least two categories above `0.5` and the two
best such scores within `0.1` of each other (`high_scores[0][1] -
high_scores[1][1] < 0.1`). -/
def ambigPairOf (text : String) : Option (ℚ × ℚ) :=
  match highScoresOf text with
  | s0 :: s1 :: _ => if s0 - s1 < 0.1 then some (s0, s1) else none
  | _ => none

/-- The best score after the ambiguity cap (`min(best_score, 0.6)` when
ambiguous). -/
def cappedScore (text : String) : ℚ :=
  match ambigPairOf text with
  | some _ => min (bestScored text).score 0.6
  | none => (bestScored text).score

/-- `classify_intent_detailed`: weighted keyword scoring over the five intent
dictionaries, ambiguity cap, unknown floor, sub-type pass. -/
def classifyIntentDetailed (text : String) : IntentResult :=
  let scores := scoreTable text
  let path0 : List RulePathStep :=
    scores.map fun s => .foundMatches s.intent.value s.ms.length
  let best := bestScored text
  let path1 := path0 ++ [.bestIntentIs best.intent best.score]
  let bestScore1 := cappedScore text
  let path2 := match ambigPairOf text with
    | some (s0, s1) => path1 ++ [.ambiguousPair s0 s1]
    | none => path1
  -- Unknown floor.
  let bestIntent2 := if bestScore1 < 0.3 then IntentType.unknown else best.intent
  let bestMatches2 := if bestScore1 < 0.3 then ([] : List IntentMatch) else best.ms
  let path3 := if bestScore1 < 0.3 then path2 ++ [.scoreTooLow] else path2
  let subType := determineSubType text.data bestIntent2
  let path4 := path3 ++ [.subTypeDetermined subType]
  let requiresNlp := decide (bestScore1 < 0.7)
  let path5 := if requiresNlp then path4 ++ [.nlpRecommended] else path4
  { intent := bestIntent2, subType := subType, confidence := bestScore1,
    ms := bestMatches2, decisionPath := path5, requiresNlp := requiresNlp }

/-- `classify_intent`: the (intent, confidence) projection. -/
def classifyIntent (text : String) : IntentType × ℚ :=
  let r := classifyIntentDetailed text
  (r.intent, r.confidence)

/-! ## Legal trigger detector: `legal_triggers.py` -/

/-- `SeverityLevel`. -/
inductive Severity where
  | critical
  | high
  | medium
  | low
deriving DecidableEq

/-- The `severity_order` ranking used for the overall-severity maximum. -/
def Severity.order : Severity → ℕ
  | .low => 0
  | .medium => 1
  | .high => 2
  | .critical => 3

/-- `LegalCategory`. -/
inductive LegalCategory where
  | rtiAct
  | grievance
  | consumer
  | serviceGuarantee
  | citizenCharter
deriving DecidableEq

/-- `LegalReference` dataclass (static RTI Act metadata). -/
structure LegalRef where
  sectionLabel : String
  title : String
  description : String
  category : LegalCategory
  applicableTo : List String
  citation : String
deriving DecidableEq

/-- `RTI_SECTIONS`: the static section directory (keyed by section id). -/
def RTI_SECTIONS : List (String × LegalRef) :=
  [("section_2", ⟨"Section 2", "Definitions",
      "Definitions of information, public authority, record, etc.",
      .rtiAct, ["rti"], "Right to Information Act, 2005 - Section 2"⟩),
   ("section_3", ⟨"Section 3", "Right to Information",
      "All citizens have the right to information subject to provisions of this Act",
      .rtiAct, ["rti"], "Right to Information Act, 2005 - Section 3"⟩),
   ("section_4", ⟨"Section 4", "Obligations of Public Authorities",
      "Suo motu disclosure obligations of public authorities",
      .rtiAct, ["rti"], "Right to Information Act, 2005 - Section 4"⟩),
   ("section_6", ⟨"Section 6", "Request for obtaining information",
      "Standard procedure for filing RTI application",
      .rtiAct, ["rti", "information_request"], "Right to Information Act, 2005 - Section 6(1)"⟩),
   ("section_7", ⟨"Section 7", "Disposal of request",
      "Timeline: 30 days (or 48 hours if life/liberty). Fees and transfer provisions.",
      .rtiAct, ["rti"], "Right to Information Act, 2005 - Section 7"⟩),
   ("section_8", ⟨"Section 8", "Exemption from disclosure",
      "10 categories of information exempt from disclosure",
      .rtiAct, ["rti", "appeal"], "Right to Information Act, 2005 - Section 8"⟩),
   ("section_9", ⟨"Section 9", "Grounds for rejection",
      "Request may be rejected if it infringes copyright",
      .rtiAct, ["rti"], "Right to Information Act, 2005 - Section 9"⟩),
   ("section_10", ⟨"Section 10", "Severability",
      "Partial disclosure: Access to non-exempt parts",
      .rtiAct, ["rti", "appeal"], "Right to Information Act, 2005 - Section 10"⟩),
   ("section_11", ⟨"Section 11", "Third party information",
      "Procedure when information relates to third party",
      .rtiAct, ["rti"], "Right to Information Act, 2005 - Section 11"⟩),
   ("section_19", ⟨"Section 19", "Appeal",
      "First appeal within 30 days, Second appeal within 90 days",
      .rtiAct, ["appeal", "first_appeal", "second_appeal"], "Right to Information Act, 2005 - Section 19"⟩),
   ("section_20", ⟨"Section 20", "Penalties",
      "Penalty of Rs. 250/day up to Rs. 25,000 for PIO delays",
      .rtiAct, ["appeal"], "Right to Information Act, 2005 - Section 20"⟩)]

/-- `RTI_SECTION_TRIGGERS`: phrases that activate each section. -/
def RTI_SECTION_TRIGGERS : List (String × List String) :=
  [("section_3", ["right to information", "citizen right", "fundamental right"]),
   ("section_4", ["suo motu", "proactive disclosure", "website", "public domain"]),
   ("section_6", ["application", "request", "seeking information", "file rti"]),
   ("section_7", ["30 days", "time limit", "no response", "timeline", "48 hours", "life", "liberty"]),
   ("section_8", ["exemption", "cannot disclose", "refused", "secret", "confidential",
                  "national security", "cabinet papers"]),
   ("section_10", ["partial", "severable", "redacted"]),
   ("section_11", ["third party", "private company", "confidential business"]),
   ("section_19", ["appeal", "first appeal", "second appeal", "appellate", "information commission"]),
   ("section_20", ["penalty", "punishment", "rs 250", "compensation"])]

/-- One `GRIEVANCE_MARKERS` table entry. -/
structure MarkerDef where
  id : String
  triggers : List String
  severity : Severity
  action : String
  escalateAfterDays : ℕ
deriving DecidableEq

/-- `GRIEVANCE_MARKERS`. -/
def GRIEVANCE_MARKERS : List MarkerDef :=
  [⟨"service_delay",
    ["delay", "pending", "waiting", "no action", "months", "since long",
     "still waiting", "not processed", "no progress"],
    .medium, "File grievance with timeline reference", 30⟩,
   ⟨"corruption",
    ["bribe", "corruption", "money demanded", "illegal payment", "extortion",
     "asked for money", "speed money", "under table", "commission", "gratification"],
    .critical, "File anti-corruption complaint with vigilance department", 0⟩,
   ⟨"misconduct",
    ["rude behavior", "harassment", "misconduct", "misbehavior", "abuse",
     "threatening", "discrimination", "insulting", "unprofessional", "arrogant"],
    .high, "Report to department head with conduct complaint", 7⟩,
   ⟨"infrastructure",
    ["broken", "damaged", "not working", "poor condition", "dilapidated",
     "dangerous", "hazardous", "unsafe"],
    .medium, "Report to maintenance/engineering department", 15⟩,
   ⟨"denial_of_service",
    ["refused", "denied", "rejected without reason", "not allowed", "prevented",
     "stopped", "barred"],
    .high, "Demand written reasons, file grievance", 7⟩,
   ⟨"negligence",
    ["negligence", "careless", "irresponsible", "ignored", "overlooked",
     "forgot", "lost my file", "misplaced"],
    .medium, "File formal complaint with documentation", 15⟩,
   ⟨"fraud",
    ["fraud", "fake", "forged", "cheated", "scam", "duplicate",
     "false document", "identity theft"],
    .critical, "File FIR and report to vigilance", 0⟩,
   ⟨"urgency_life_liberty",
    ["life threatening", "emergency", "medical emergency", "dying", "death",
     "hospital", "urgent medical", "liberty", "illegal detention", "arrest"],
    .critical, "Invoke Section 7(1) for 48-hour response", 0⟩]

/-- `GrievanceMarker` dataclass. -/
structure GrievanceMarkerR where
  type : String
  triggersMatched : List String
  severity : Severity
  recommendedAction : String
  escalationNeeded : Bool
deriving DecidableEq

/-- The RTI-section pass of `analyze_legal_context`: first matching trigger
of each section appends the section (deduplicated) and its citation. -/
def findRtiSections (tl : List Char) : List LegalRef × List String :=
  RTI_SECTION_TRIGGERS.foldl
    (fun acc p =>
      if p.2.any (fun trig => containsSub trig.data tl) then
        match List.lookup p.1 RTI_SECTIONS with
        | some sec =>
          if sec ∈ acc.1 then acc else (acc.1 ++ [sec], acc.2 ++ [sec.citation])
        | none => acc
      else acc)
    ([], [])

/-- The grievance-marker pass of `analyze_legal_context`. -/
def findGrievanceMarkers (tl : List Char) : List GrievanceMarkerR :=
  GRIEVANCE_MARKERS.filterMap fun m =>
    let found := m.triggers.filter fun trig => containsSub trig.data tl
    if found.isEmpty then none
    else some ⟨m.id, found, m.severity, m.action, decide (m.escalateAfterDays = 0)⟩

/-- Overall severity: maximum over matched markers, `LOW` when none. -/
def maxSeverity (markers : List GrievanceMarkerR) : Severity :=
  markers.foldl (fun acc m => if acc.order < m.severity.order then m.severity else acc) .low

/-- The applicable-timeline determination of `analyze_legal_context`. -/
def timelineFor (tl : List Char) (secs : List LegalRef) : Option String :=
  if (splitWs tl).any (fun tok =>
      containsSub "life".data tok || containsSub "liberty".data tok ||
      containsSub "emergency".data tok) then
    some "48 hours (Section 7(1) proviso - life/liberty)"
  else if secs.any (fun s => s.sectionLabel == "Section 6") then
    some "30 days (Section 7(1))"
  else if secs.any (fun s => s.sectionLabel == "Section 19") then
    if containsSub "second appeal".data tl then
      some "90 days from First Appeal (Section 19(3))"
    else some "30 days from decision (Section 19(1))"
  else none

/-- The legal-notes accumulation of `analyze_legal_context`. -/
def legalNotesFor (secs : List LegalRef) (markers : List GrievanceMarkerR)
    (sev : Severity) : List String :=
  (if secs.isEmpty then []
   else ["This appears to be an RTI-related matter under the RTI Act, 2005"]) ++
  (if sev = .critical then
    ["⚠️ CRITICAL: This matter requires immediate attention",
     "Consider filing FIR if criminal activity is involved"] else []) ++
  (if markers.any (fun m => m.type == "corruption") then
    ["Consider reporting to Anti-Corruption Bureau / Vigilance Department",
     "Preserve all evidence including recordings if legally obtained"] else []) ++
  (if markers.any (fun m => m.type == "urgency_life_liberty") then
    ["48-hour timeline applicable under RTI Act Section 7(1)",
     "For emergencies, also contact emergency services (100/108)"] else [])

/-- `LegalAnalysisResult` dataclass. -/
structure LegalAnalysisResult where
  rtiSections : List LegalRef
  grievanceMarkers : List GrievanceMarkerR
  suggestedCitations : List String
  overallSeverity : Severity
  timelineApplicable : Option String
  legalNotes : List String
deriving DecidableEq

/-- `analyze_legal_context`. -/
def analyzeLegalContext (text : String) : LegalAnalysisResult :=
  let tl := lowerStr text.data
  let secs := findRtiSections tl
  let markers := findGrievanceMarkers tl
  let sev := maxSeverity markers
  { rtiSections := secs.1, grievanceMarkers := markers,
    suggestedCitations := secs.2, overallSeverity := sev,
    timelineApplicable := timelineFor tl secs.1,
    legalNotes := legalNotesFor secs.1 markers sev }

/-- A section summary as returned by `detect_legal_triggers`. -/
structure SectionSummary where
  sectionLabel : String
  title : String
  description : String
deriving DecidableEq

/-- A marker summary as returned by `detect_legal_triggers`. -/
structure MarkerSummary where
  type : String
  severity : Severity
deriving DecidableEq

/-- The dictionary returned by `detect_legal_triggers`. -/
structure LegalTriggersOut where
  rtiSections : List SectionSummary
  grievanceMarkers : List MarkerSummary
  suggestedCitations : List String
deriving DecidableEq

/-- `detect_legal_triggers`: the backward-compatible projection of
`analyze_legal_context`. -/
def detectLegalTriggers (text : String) : LegalTriggersOut :=
  let r := analyzeLegalContext text
  { rtiSections := r.rtiSections.map fun s => ⟨s.sectionLabel, s.title, s.description⟩,
    grievanceMarkers := r.grievanceMarkers.map fun m => ⟨m.type, m.severity⟩,
    suggestedCitations := r.suggestedCitations }

/-! ## Confidence gate: `confidence_gate.py` -/

/-- `ConfidenceLevel`. -/
inductive ConfidenceLevel where
  | high
  | medium
  | low
  | veryLow
deriving DecidableEq

/-- `DecisionSource`. -/
inductive DecisionSource where
  | ruleEngine
  | spacyNlp
  | distilbert
  | userInput
  | fallback
deriving DecidableEq

/-- Default values of the `Thresholds` configuration class (the claims are
about the default configuration; `Thresholds.update` is never called in the
repository). -/
def Thresholds.HIGH : ℚ := 0.90

def Thresholds.MEDIUM : ℚ := 0.70

def Thresholds.LOW : ℚ := 0.50

def Thresholds.USE_NLP_BELOW : ℚ := 0.70

def Thresholds.USE_DISTILBERT_BELOW : ℚ := 0.60

def Thresholds.AUTO_APPLY_ABOVE : ℚ := 0.90

/-- `get_confidence_level`. -/
def getConfidenceLevel (confidence : ℚ) : ConfidenceLevel :=
  if Thresholds.HIGH ≤ confidence then .high
  else if Thresholds.MEDIUM ≤ confidence then .medium
  else if Thresholds.LOW ≤ confidence then .low
  else .veryLow

/-- `should_use_nlp`: true when the rule confidence is below `USE_NLP_BELOW`. -/
def shouldUseNlp (confidence : ℚ) : Bool :=
  decide (confidence < Thresholds.USE_NLP_BELOW)

/-- `should_use_distilbert`: true when confidence is below `USE_DISTILBERT_BELOW`.
(The orchestrator never calls this function; see claim C2.) -/
def shouldUseDistilbert (confidence : ℚ) : Bool :=
  decide (confidence < Thresholds.USE_DISTILBERT_BELOW)

/-- `GatedResult` (timestamp, audit id and the formatted explanation string
are process metadata and are not modelled). -/
structure GatedResult (α : Type) where
  value : α
  confidence : ℚ
  level : ConfidenceLevel
  requiresConfirmation : Bool
  alternatives : List (String × ℚ)
  source : DecisionSource

/-- `gate_result` with the default source (`RULE_ENGINE`), as the
orchestrator calls it. -/
def gateResult {α : Type} (value : α) (confidence : ℚ)
    (alternatives : List (String × ℚ)) : GatedResult α :=
  let level := getConfidenceLevel confidence
  { value := value, confidence := confidence, level := level,
    requiresConfirmation := decide (level = .low ∨ level = .veryLow),
    alternatives := alternatives, source := .ruleEngine }

/-- `should_ask_user`. -/
def shouldAskUser (confidence : ℚ) (isLegalContent : Bool)
    (hasAlternatives : Bool) : Bool :=
  if isLegalContent then true
  else if confidence < Thresholds.MEDIUM then true
  else if Thresholds.HIGH ≤ confidence then false
  else hasAlternatives

/-! ## Semantic similarity: `distilbert_semantic.py` -/

/-- `compute_similarity`: the cosine similarity of the two DistilBERT
embeddings (an external model, represented by the parameter `rawSim`),
clamped to `[0, 1]`; a zero-norm embedding yields `0`, also in `[0, 1]`. -/
def computeSimilarity (rawSim : String → String → ℚ) (t1 t2 : String) : ℚ :=
  max 0 (min 1 (rawSim t1 t2))

/-! ## Inference orchestrator: `inference_orchestrator.py` -/

/-- The orchestrator module re-declares its own four-value `IntentType`. -/
inductive OrchIntent where
  | rti
  | complaint
  | appeal
  | unknown
deriving DecidableEq

/-- `IntentType(intent_str) if intent_str != "unknown" else IntentType.UNKNOWN`:
the orchestrator enum has no member for `follow_up` or `escalation`, so the
conversion raises `ValueError` there (modelled as `none`). -/
def intentOfRule : IntentType → Option OrchIntent
  | .rti => some .rti
  | .complaint => some .complaint
  | .appeal => some .appeal
  | .unknown => some .unknown
  | .followUp => none
  | .escalation => none

/-- `DocumentType` of the orchestrator. -/
inductive DocumentType where
  | informationRequest
  | recordsRequest
  | inspectionRequest
  | grievance
  | escalation
  | followUp
deriving DecidableEq

/-- `RTI_DOCUMENT_INDICATORS`. -/
def RTI_DOCUMENT_INDICATORS : List (DocumentType × List String) :=
  [(.informationRequest,
    ["information", "details", "data", "statistics", "records",
     "expenditure", "budget", "allocation", "spending"]),
   (.recordsRequest,
    ["copies", "documents", "files", "papers", "correspondence",
     "letters", "orders", "circulars", "notifications"]),
   (.inspectionRequest,
    ["inspection", "examine", "verify", "check", "physical verification",
     "site visit", "on-site", "inspect documents"])]

/-- `COMPLAINT_DOCUMENT_INDICATORS`. -/
def COMPLAINT_DOCUMENT_INDICATORS : List (DocumentType × List String) :=
  [(.grievance,
    ["problem", "issue", "not working", "broken", "complaint",
     "grievance", "facing", "suffering", "harassment"]),
   (.escalation,
    ["no response", "ignored", "multiple complaints", "escalate",
     "higher authority", "senior officer", "months", "years"]),
   (.followUp,
    ["follow up", "reminder", "pending", "status", "earlier complaint",
     "reference number", "tracking", "previous"])]

/-- Python `max(scores, key=scores.get)`: first key with the maximal count. -/
def pickBestCount (l : List (DocumentType × ℕ)) : DocumentType × ℕ :=
  match l with
  | [] => (.grievance, 0)
  | x :: xs => xs.foldl (fun acc y => if acc.2 < y.2 then y else acc) x

/-- `_determine_document_type`: plain substring counting over the indicator
table of the already-decided intent. -/
def determineDocumentType (t : List Char) (intent : OrchIntent) : DocumentType × ℚ :=
  let tl := lowerStr t
  match intent with
  | .appeal => (.escalation, 0.9)
  | .unknown => (.grievance, 0.5)
  | i =>
    let inds := if i = .rti then RTI_DOCUMENT_INDICATORS else COMPLAINT_DOCUMENT_INDICATORS
    let dflt := if i = .rti then DocumentType.informationRequest else DocumentType.grievance
    let scores := inds.map fun p => (p.1, (p.2.filter fun kw => containsSub kw.data tl).length)
    let bestPair := pickBestCount scores
    if 0 < bestPair.2 then (bestPair.1, min 0.95 (0.6 + (bestPair.2 : ℚ) * 0.1))
    else (dflt, 0.7)

/-- `"DATE" not in entities or not entities["DATE"]`. -/
def missingEnt (entities : List (String × List String)) (k : String) : Bool :=
  match List.lookup k entities with
  | none => true
  | some [] => true
  | some (_ :: _) => false

/-- `_generate_suggestions`. -/
def generateSuggestions (intent : OrchIntent)
    (entities : List (String × List String)) (lt : LegalTriggersOut) : List String :=
  (if missingEnt entities "DATE" && decide (intent = .rti) then
    ["Consider specifying the time period for your information request (e.g., from January 2024 to December 2024)"]
   else []) ++
  (if missingEnt entities "ORG" then
    ["Mentioning the specific department or office name will help route your application correctly"]
   else []) ++
  (if intent = .rti then
    (if lt.rtiSections.isEmpty then
      ["Your request will be filed under Section 6(1) of the RTI Act, 2005"]
     else []) ++
    ["RTI fee of Rs. 10 is applicable. Payment modes: IPO, DD, or online (state-specific)"]
   else []) ++
  (if decide (intent = .complaint) &&
      lt.grievanceMarkers.any (fun m => decide (m.severity = .high)) then
    ["Your complaint indicates serious issues. Consider also filing with anti-corruption helpline or vigilance department"]
   else []) ++
  (if intent = .appeal then
    ["First appeal must be filed within 30 days of receiving the response (or 30 days after expected response date)",
     "Second appeal to Information Commission is available if first appeal is rejected"]
   else [])

/-- One constructor per `decision_path.append` site of `run_inference`
(the source appends formatted strings; the tags carry the interpolated
data). -/
inductive PathStep where
  | ruleEngine
  | legalTriggersStep (nRti nGrievance : ℕ)
  | spacyNLP
  | confidenceGate
  | rtiSectionsBoost
  | grievanceBoost
  | distilbertInvoked
  | distilbertSuggestsRTI (score : ℚ)
  | distilbertSuggestsComplaint (score : ℚ)
  | distilbertInconclusive
  | distilbertBoost (boost : ℚ)
  | distilbertSkippedError
  | distilbertSkippedConfident
  | documentTypeStep (d : DocumentType)
deriving DecidableEq

/-- Outputs of the stages that call external models, plus the issue/department
mapping of `issue_rules.py`, which the orchestrator stores in the result
without reading (no claim depends on it): `rawSim` is the raw cosine
similarity of DistilBERT embeddings, `simFails` models an exception raised
inside the DistilBERT block, `entities`/`keyPhrases`/`sentiment` are the
spaCy stage outputs. -/
structure ExternalNLP where
  rawSim : String → String → ℚ
  simFails : Bool
  entities : List (String × List String)
  keyPhrases : List String
  sentiment : String
  departmentMapping : List String

/-- The three hard-coded RTI similarity templates of `run_inference`. -/
def rtiTemplates : List String :=
  ["I want to request information about government records",
   "Please provide copies of documents under RTI Act",
   "I am seeking information about public expenditure"]

/-- The three hard-coded complaint similarity templates of `run_inference`. -/
def complaintTemplates : List String :=
  ["I want to file a complaint about poor service",
   "I am facing problems with government department",
   "I want to report corruption and misconduct"]

/-- `intent == IntentType.RTI and legal_triggers.get("rti_sections")`. -/
def rtiBoostApplies (intent : OrchIntent) (lt : LegalTriggersOut) : Bool :=
  decide (intent = .rti) && !lt.rtiSections.isEmpty

/-- `intent == IntentType.COMPLAINT and legal_triggers.get("grievance_markers")`. -/
def grievanceBoostApplies (intent : OrchIntent) (lt : LegalTriggersOut) : Bool :=
  decide (intent = .complaint) && !lt.grievanceMarkers.isEmpty

/-- The `adjusted_confidence` reached at the top of STEP 4 of `run_inference`:
rule confidence after the legal-trigger boosts (each `+0.1`, capped at `0.95`).
For a text whose rule intent has no orchestrator counterpart the conversion
raises before this point; the `getD .unknown` branch is then never consulted. -/
def preSemanticConfidence (text : String) : ℚ :=
  let r := classifyIntent text
  let intent := (intentOfRule r.1).getD .unknown
  let lt := detectLegalTriggers text
  let c1 := if rtiBoostApplies intent lt then min 0.95 (r.2 + 0.1) else r.2
  if grievanceBoostApplies intent lt then min 0.95 (c1 + 0.1) else c1

/-- `InferenceResult` dataclass (the formatted `explanation` string is
display-only and is not modelled). -/
structure InferenceResult where
  intent : OrchIntent
  documentType : DocumentType
  confidence : ℚ
  confidenceLevel : ConfidenceLevel
  requiresConfirmation : Bool
  extractedEntities : List (String × List String)
  keyPhrases : List String
  legalTriggers : LegalTriggersOut
  departmentMapping : List String
  sentiment : String
  suggestions : List String
  decisionPath : List PathStep

/-- STEP 4 of `run_inference`: the DistilBERT stage, gated by
`should_use_nlp(adjusted_confidence)`.  Returns the (possibly refined)
intent, the (possibly boosted or replaced) confidence and the audit-trail
entries the stage appends. -/
def semanticStage (ext : ExternalNLP) (text : String) (intent : OrchIntent)
    (c2 : ℚ) : OrchIntent × ℚ × List PathStep :=
  if shouldUseNlp c2 then
    if ext.simFails then (intent, c2, [.distilbertInvoked, .distilbertSkippedError])
    else
      let maxRti := listMaxQ (rtiTemplates.map fun tpl => computeSimilarity ext.rawSim text tpl)
      let maxComplaint :=
        listMaxQ (complaintTemplates.map fun tpl => computeSimilarity ext.rawSim text tpl)
      if intent = .unknown then
        if maxComplaint < maxRti ∧ (0.6 : ℚ) < maxRti then
          (.rti, maxRti * 0.8, [.distilbertInvoked, .distilbertSuggestsRTI maxRti])
        else if maxRti < maxComplaint ∧ (0.6 : ℚ) < maxComplaint then
          (.complaint, maxComplaint * 0.8,
           [.distilbertInvoked, .distilbertSuggestsComplaint maxComplaint])
        else (intent, c2, [.distilbertInvoked, .distilbertInconclusive])
      else
        let boost := max maxRti maxComplaint * 0.1
        (intent, min 0.9 (c2 + boost), [.distilbertInvoked, .distilbertBoost boost])
  else (intent, c2, [.distilbertSkippedConfident])

/-- The body of `run_inference` after the rule intent has been converted to
the orchestrator enum. -/
def inferenceBody (ext : ExternalNLP) (text : String) (intent : OrchIntent) :
    InferenceResult :=
  let lt := detectLegalTriggers text
  let path2 : List PathStep :=
    [.ruleEngine,
     .legalTriggersStep lt.rtiSections.length lt.grievanceMarkers.length,
     .spacyNLP, .confidenceGate]
  let path3 := path2 ++ (if rtiBoostApplies intent lt then [.rtiSectionsBoost] else [])
    ++ (if grievanceBoostApplies intent lt then [.grievanceBoost] else [])
  let sem := semanticStage ext text intent (preSemanticConfidence text)
  let dt := determineDocumentType text.data sem.1
  let path4 := path3 ++ sem.2.2 ++ [.documentTypeStep dt.1]
  let alts : List (String × ℚ) :=
    if sem.1 = .unknown then [("rti", 0), ("complaint", 0), ("appeal", 0)] else []
  let gated := gateResult sem.1 sem.2.1 alts
  { intent := sem.1, documentType := dt.1, confidence := sem.2.1,
    confidenceLevel := gated.level,
    requiresConfirmation := gated.requiresConfirmation,
    extractedEntities := ext.entities, keyPhrases := ext.keyPhrases,
    legalTriggers := lt, departmentMapping := ext.departmentMapping,
    sentiment := ext.sentiment,
    suggestions := generateSuggestions sem.1 ext.entities lt,
    decisionPath := path4 }

/-- `run_inference`: the full pipeline.  Returns `none` when the rule intent
is `follow_up` or `escalation` (the source raises `ValueError` there). -/
def runInference (ext : ExternalNLP) (text : String) : Option InferenceResult :=
  match intentOfRule (classifyIntent text).1 with
  | none => none
  | some intent => some (inferenceBody ext text intent)

/-! ## LLM text enhancer: `text_enhancer.py` -/

/-- A character matched by the placeholder pattern `[A-Z_]`. -/
def isPhChar (c : Char) : Bool := ('A' ≤ c && c ≤ 'Z') || c = '_'

/-- `re.findall(r'\[([A-Z_]+)\]', draft_text)`: the bracketed uppercase
placeholder names, in order of occurrence, scanning left to right without
overlap.  (Backtracking cannot shorten the greedy `[A-Z_]+` run here: a
shorter run would have to be followed by `]`, which is not a run character.) -/
def findPlaceholdersAux : ℕ → List Char → List (List Char)
  | 0, _ => []
  | _+1, [] => []
  | fuel+1, c :: cs =>
    if c = '[' then
      let run := cs.takeWhile isPhChar
      let rest := cs.drop run.length
      if run.isEmpty then findPlaceholdersAux fuel cs
      else
        match rest with
        | ']' :: rest2 => run :: findPlaceholdersAux fuel rest2
        | _ => findPlaceholdersAux fuel cs
    else findPlaceholdersAux fuel cs

def findPlaceholders (t : List Char) : List (List Char) :=
  findPlaceholdersAux (t.length + 1) t

/-- The bracketed form `[PH]` checked by `f"[{ph}]" not in enhanced`. -/
def bracketed (ph : List Char) : List Char := '[' :: ph ++ [']']

/-- `EnhancementResult` (status fields only; token counts, model names and
summaries are display metadata). -/
structure EnhancementResult where
  originalText : List Char
  enhancedText : List Char
  wasEnhanced : Bool
  integrityError : Bool

/-- `enhance_draft_text` with the default `preserve_placeholders=True`.
`llm` is the enhanced text produced by the external OpenAI service; `none`
models the unavailable-service and exception paths, both of which return the
original draft.  When any placeholder of the draft is missing from the LLM
output the enhancement is reverted. -/
def enhanceDraftText (draft : List Char) (llm : Option (List Char)) :
    EnhancementResult :=
  match llm with
  | none => ⟨draft, draft, false, false⟩
  | some out =>
    let placeholders := findPlaceholders draft
    if placeholders.any fun ph => !containsSub (bracketed ph) out then
      ⟨draft, draft, false, true⟩
    else ⟨draft, out, true, false⟩

/-! ## Issue-to-authority resolver: `authority_resolver.py` -/

/-- `AuthorityLevel` (`local` renamed: Lean keyword). -/
inductive AuthorityLevel where
  | localLevel
  | district
  | state
  | central
deriving DecidableEq

/-- `Authority` dataclass (the never-populated `email_pattern`,
`phone_pattern` and `website` fields are omitted). -/
structure Authority where
  name : String
  designation : String
  department : String
  level : AuthorityLevel
  addressTemplate : String
  rtiFee : ℕ := 10
  notes : Option String := none
deriving DecidableEq

/-- `DEPARTMENT_AUTHORITIES["general"]`, also the fallback department. -/
def generalAuthorities : List (String × Authority) :=
  [("pio", { name := "Public Information Officer", designation := "PIO",
             department := "Concerned Department", level := .state,
             addressTemplate := "Secretariat, {state}" }),
   ("collector", { name := "District Collector",
                   designation := "Collector & District Magistrate",
                   department := "District Administration", level := .district,
                   addressTemplate := "Collectorate, {district}",
                   notes := some "For general grievances" }),
   ("grievance", { name := "Grievance Cell",
                   designation := "Officer In-Charge, Grievance Cell",
                   department := "Chief Minister's Office / District Administration",
                   level := .state,
                   addressTemplate := "CM Grievance Cell, {state}" })]

/-- `DEPARTMENT_AUTHORITIES`: the static per-category authority directory. -/
def DEPARTMENT_AUTHORITIES : List (String × List (String × Authority)) :=
  [("electricity",
    [("pio", { name := "Public Information Officer",
               designation := "PIO, Electricity Department",
               department := "State Electricity Board / DISCOM", level := .state,
               addressTemplate := "{state} State Electricity Board, {district}",
               notes := some "For RTI applications related to electricity" }),
     ("ae", { name := "Assistant Engineer",
              designation := "Assistant Engineer (Electrical)",
              department := "State Electricity Board", level := .localLevel,
              addressTemplate := "Assistant Engineer Office, {area}, {district}",
              notes := some "For local electrical complaints" }),
     ("se", { name := "Superintending Engineer",
              designation := "Superintending Engineer",
              department := "State Electricity Board", level := .district,
              addressTemplate := "SE Office, {district} Circle",
              notes := some "For escalated complaints" }),
     ("grievance", { name := "Consumer Grievance Redressal Forum",
                     designation := "Chairman, CGRF",
                     department := "State Electricity Regulatory Commission",
                     level := .state,
                     addressTemplate := "CGRF, {state} Electricity Regulatory Commission",
                     notes := some "For unresolved consumer complaints" })]),
   ("water",
    [("pio", { name := "Public Information Officer",
               designation := "PIO, Water Supply Department",
               department := "Jal Board / Municipal Corporation", level := .district,
               addressTemplate := "{state} Jal Board, {district}" }),
     ("je", { name := "Junior Engineer", designation := "Junior Engineer (Water Supply)",
              department := "Municipal Corporation / Jal Board", level := .localLevel,
              addressTemplate := "JE Office, Water Supply Division, {area}",
              notes := some "For local water supply issues" }),
     ("ee", { name := "Executive Engineer", designation := "Executive Engineer (Water)",
              department := "Jal Board", level := .district,
              addressTemplate := "EE Office, {district} Division",
              notes := some "For district-level water issues" })]),
   ("roads",
    [("pio", { name := "Public Information Officer", designation := "PIO, PWD",
               department := "Public Works Department", level := .state,
               addressTemplate := "PWD Secretariat, {state}" }),
     ("je", { name := "Junior Engineer", designation := "Junior Engineer (Roads)",
              department := "PWD / Municipal Corporation", level := .localLevel,
              addressTemplate := "PWD Sub-Division, {area}, {district}",
              notes := some "For local road repair complaints" }),
     ("ee", { name := "Executive Engineer", designation := "Executive Engineer (Roads)",
              department := "PWD", level := .district,
              addressTemplate := "PWD Division Office, {district}" }),
     ("nhai", { name := "Project Director", designation := "Project Director, NHAI",
                department := "National Highways Authority of India", level := .central,
                addressTemplate := "NHAI Project Office, {state}",
                notes := some "For national highway issues" })]),
   ("education",
    [("pio", { name := "Public Information Officer",
               designation := "PIO, Education Department",
               department := "Directorate of Education", level := .state,
               addressTemplate := "Directorate of Education, {state}" }),
     ("deo", { name := "District Education Officer", designation := "DEO",
               department := "Education Department", level := .district,
               addressTemplate := "DEO Office, {district}",
               notes := some "For school-related issues" }),
     ("principal", { name := "Principal", designation := "Principal / Headmaster",
                     department := "Government School", level := .localLevel,
                     addressTemplate := "Government School, {area}, {district}" })]),
   ("health",
    [("pio", { name := "Public Information Officer",
               designation := "PIO, Health Department",
               department := "Directorate of Health Services", level := .state,
               addressTemplate := "Directorate of Health Services, {state}" }),
     ("cmo", { name := "Chief Medical Officer", designation := "CMO",
               department := "District Health Department", level := .district,
               addressTemplate := "CMO Office, {district}",
               notes := some "For district health complaints" }),
     ("medical_superintendent", { name := "Medical Superintendent",
                                  designation := "Medical Superintendent",
                                  department := "District / Government Hospital",
                                  level := .district,
                                  addressTemplate := "Government Hospital, {district}" })]),
   ("police",
    [("pio", { name := "Public Information Officer",
               designation := "PIO, Police Department",
               department := "Police Headquarters", level := .state,
               addressTemplate := "Police Headquarters, {state}" }),
     ("sho", { name := "Station House Officer", designation := "SHO",
               department := "Police Station", level := .localLevel,
               addressTemplate := "Police Station, {area}, {district}",
               notes := some "For FIR and local law enforcement" }),
     ("sp", { name := "Superintendent of Police", designation := "SP",
              department := "District Police", level := .district,
              addressTemplate := "SP Office, {district}",
              notes := some "For escalated police complaints" }),
     ("ig", { name := "Inspector General of Police", designation := "IG",
              department := "Police Range", level := .state,
              addressTemplate := "IG Office, {state}" })]),
   ("land",
    [("pio", { name := "Public Information Officer",
               designation := "PIO, Revenue Department",
               department := "Revenue Department", level := .state,
               addressTemplate := "Revenue Secretariat, {state}" }),
     ("tehsildar", { name := "Tehsildar", designation := "Tehsildar / Naib Tehsildar",
                     department := "Revenue Department", level := .localLevel,
                     addressTemplate := "Tehsil Office, {area}, {district}",
                     notes := some "For land records, mutations, revenue issues" }),
     ("sdo", { name := "Sub-Divisional Officer", designation := "SDO (Revenue)",
               department := "Revenue Department", level := .district,
               addressTemplate := "SDO Office, {district}" }),
     ("collector", { name := "District Collector",
                     designation := "Collector & District Magistrate",
                     department := "District Administration", level := .district,
                     addressTemplate := "Collectorate, {district}",
                     notes := some "For major land disputes and escalations" })]),
   ("transport",
    [("pio", { name := "Public Information Officer",
               designation := "PIO, Transport Department",
               department := "Transport Department", level := .state,
               addressTemplate := "Transport Commissioner Office, {state}" }),
     ("rto", { name := "Regional Transport Officer", designation := "RTO",
               department := "Regional Transport Office", level := .district,
               addressTemplate := "RTO Office, {district}",
               notes := some "For license, registration, permits" }),
     ("arto", { name := "Assistant Regional Transport Officer", designation := "ARTO",
                department := "Regional Transport Office", level := .district,
                addressTemplate := "RTO Office, {district}" })]),
   ("ration",
    [("pio", { name := "Public Information Officer",
               designation := "PIO, Food & Civil Supplies",
               department := "Food & Civil Supplies Department", level := .state,
               addressTemplate := "Food & Civil Supplies Directorate, {state}" }),
     ("fso", { name := "Food & Supply Officer", designation := "FSO / DFSO",
               department := "Food & Civil Supplies", level := .district,
               addressTemplate := "FSO Office, {district}",
               notes := some "For ration card, PDS shop issues" }),
     ("inspector", { name := "Food Inspector", designation := "Food Inspector",
                     department := "Food & Civil Supplies", level := .localLevel,
                     addressTemplate := "FSO Office, {area}, {district}" })]),
   ("pension",
    [("pio", { name := "Public Information Officer",
               designation := "PIO, Pension Department",
               department := "Pension & Pensioners Welfare", level := .state,
               addressTemplate := "Pension Directorate, {state}" }),
     ("treasury", { name := "Treasury Officer", designation := "District Treasury Officer",
                    department := "Treasury Department", level := .district,
                    addressTemplate := "District Treasury, {district}",
                    notes := some "For pension disbursement issues" })]),
   ("municipal",
    [("pio", { name := "Public Information Officer",
               designation := "PIO, Municipal Corporation",
               department := "Municipal Corporation / Nagar Palika", level := .district,
               addressTemplate := "Municipal Corporation, {district}" }),
     ("commissioner", { name := "Municipal Commissioner", designation := "Commissioner",
                        department := "Municipal Corporation", level := .district,
                        addressTemplate := "Municipal Corporation, {district}",
                        notes := some "For major civic issues" }),
     ("health_officer", { name := "Municipal Health Officer", designation := "MHO",
                          department := "Municipal Corporation", level := .district,
                          addressTemplate := "Municipal Corporation, {district}",
                          notes := some "For sanitation, health hazards" })]),
   ("general", generalAuthorities)]

/-- `STATE_INFO` keys with capital and code. -/
def STATE_INFO : List (String × String × String) :=
  [("andhra_pradesh", "Amaravati", "AP"), ("arunachal_pradesh", "Itanagar", "AR"),
   ("assam", "Dispur", "AS"), ("bihar", "Patna", "BR"),
   ("chhattisgarh", "Raipur", "CG"), ("goa", "Panaji", "GA"),
   ("gujarat", "Gandhinagar", "GJ"), ("haryana", "Chandigarh", "HR"),
   ("himachal_pradesh", "Shimla", "HP"), ("jharkhand", "Ranchi", "JH"),
   ("karnataka", "Bengaluru", "KA"), ("kerala", "Thiruvananthapuram", "KL"),
   ("madhya_pradesh", "Bhopal", "MP"), ("maharashtra", "Mumbai", "MH"),
   ("manipur", "Imphal", "MN"), ("meghalaya", "Shillong", "ML"),
   ("mizoram", "Aizawl", "MZ"), ("nagaland", "Kohima", "NL"),
   ("odisha", "Bhubaneswar", "OD"), ("punjab", "Chandigarh", "PB"),
   ("rajasthan", "Jaipur", "RJ"), ("sikkim", "Gangtok", "SK"),
   ("tamil_nadu", "Chennai", "TN"), ("telangana", "Hyderabad", "TG"),
   ("tripura", "Agartala", "TR"), ("uttar_pradesh", "Lucknow", "UP"),
   ("uttarakhand", "Dehradun", "UK"), ("west_bengal", "Kolkata", "WB"),
   ("delhi", "New Delhi", "DL")]

/-- `_normalize_state`. -/
def normalizeState (s : List Char) : List Char :=
  replaceAll (replaceAll (lowerStr s) " ".data "_".data) "-".data "_".data

/-- `_format_address`: template substitution of `{state}`, `{district}`,
`{area}`, with bracketed hints for missing parts. -/
def formatAddress (tpl : String) (state : List Char)
    (district area : Option (List Char)) : List Char :=
  let stateDisplay := pyTitle (replaceAll state "_".data " ".data)
  let a1 := replaceAll tpl.data "{state}".data stateDisplay
  let districtDisplay := match district with
    | some d => pyTitle d
    | none => "[District]".data
  let a2 := replaceAll a1 "{district}".data districtDisplay
  let areaDisplay := match area with
    | some a => pyTitle a
    | none => "[Area/Locality]".data
  replaceAll a2 "{area}".data areaDisplay

/-- `AuthorityMatch` dataclass. -/
structure AuthorityMatch where
  authority : Authority
  confidence : ℚ
  matchReason : String
  isPrimary : Bool
deriving DecidableEq

/-- `ResolutionResult` dataclass. -/
structure ResolutionResult where
  matchList : List AuthorityMatch
  primary : Option AuthorityMatch
  category : String
  department : String
  suggestions : List String
  requiresStateSelection : Bool
deriving DecidableEq

/-- Copy an authority with its address template instantiated, as the
`Authority(...)` reconstruction inside `resolve_authority` does. -/
def withAddress (a : Authority) (state : List Char)
    (district area : Option (List Char)) : Authority :=
  { a with addressTemplate := String.mk (formatAddress a.addressTemplate state district area) }

/-- Escalation-hint words checked against the stringified entity dict. -/
def escalationWords : List String := ["no response", "ignored", "months", "escalate", "higher"]

/-- The keys tried for a new local-level complaint. -/
def localKeys : List String := ["je", "sho", "inspector", "tehsildar", "ae"]

/-- The keys tried for an escalated district-level complaint. -/
def districtKeys : List String := ["ee", "sp", "cmo", "rto", "sdo", "fso", "deo"]

/-- `resolve_authority`.  `extractedEntities` stands for the stringified
spaCy entity dict the source substring-searches (`str(extracted_entities)`);
`none` covers the `None`-and-empty (falsy) cases. -/
def resolveAuthority (category state : String) (district area : Option String)
    (isRti : Bool) (extractedEntities : Option String) : ResolutionResult :=
  let cat := stripWs (lowerStr category.data)
  let stateNorm := normalizeState state.data
  let dept := (List.lookup (String.mk cat) DEPARTMENT_AUTHORITIES).getD generalAuthorities
  let dOpt := district.map (·.data)
  let aOpt := area.map (·.data)
  let pioOpt := List.lookup "pio" dept
  let rtiBranch := isRti && pioOpt.isSome
  let matchesAndSuggestions : List AuthorityMatch × List String :=
    if rtiBranch then
      match pioOpt with
      | some pio =>
        ([⟨withAddress pio state.data dOpt aOpt, 0.95,
           "PIO is the designated officer for RTI applications", true⟩],
         ["RTI applications should be addressed to the Public Information Officer (PIO)",
          "RTI fee: Rs. " ++ toString pio.rtiFee ++ "/- via IPO/DD/Online"])
      | none => ([], [])
    else
      let isEscalation := match extractedEntities with
        | some hint => escalationWords.any fun w => containsSub w.data (lowerStr hint.data)
        | none => false
      if isEscalation then
        (match List.findSome? (fun k => List.lookup k dept) districtKeys with
         | some auth =>
           [⟨withAddress auth state.data dOpt aOpt, 0.85,
             "District-level authority for escalated complaints", true⟩]
         | none => [],
         ["For escalated complaints, consider mentioning previous complaint details"])
      else
        (match List.findSome? (fun k => List.lookup k dept) localKeys with
         | some auth =>
           [⟨withAddress auth state.data dOpt aOpt, 0.85,
             "Local-level authority for new complaints", true⟩]
         | none => [],
         [])
  let matches0 := matchesAndSuggestions.1
  let matches1 := matches0 ++
    (match List.lookup "grievance" dept with
     | some grievance =>
       if matches0.length < 3 then
         [⟨withAddress grievance state.data dOpt aOpt, 0.7,
           "Grievance redressal forum as alternative", false⟩]
       else []
     | none => [])
  let matches2 := matches1 ++
    (if String.mk cat ≠ "general" ∧ matches1.length < 3 then
      match List.lookup "collector" generalAuthorities with
      | some collector =>
        [⟨withAddress collector state.data dOpt aOpt, 0.6,
          "District Collector as general authority", false⟩]
      | none => []
     else [])
  let primary := match matches2.find? (fun m => m.isPrimary) with
    | some m => some m
    | none => matches2.head?
  let requiresState := (List.lookup (String.mk stateNorm) STATE_INFO).isNone
  let suggestions := matchesAndSuggestions.2 ++
    (if requiresState then ["Please verify your state name for accurate authority details"] else [])
  { matchList := matches2, primary := primary, category := String.mk cat,
    department := ((List.lookup "pio" dept).getD
      ((List.lookup "grievance" dept).getD
        { name := "", designation := "", department := "General", level := .state,
          addressTemplate := "" })).department,
    suggestions := suggestions, requiresStateSelection := requiresState }

/-! ## Lemmas about the rule-engine scoring -/

theorem weight_mem_of_match {kws : List (String × ℚ)} {cat : String} {t : List Char}
    {m : IntentMatch} (h : m ∈ findKeywordMatches kws cat t) :
    m.weight ∈ kws.map Prod.snd := by
  simp only [findKeywordMatches, List.mem_flatMap] at h
  obtain ⟨p, hp, hm⟩ := h
  simp only [List.mem_map] at hm
  obtain ⟨i, _, rfl⟩ := hm
  exact List.mem_map_of_mem Prod.snd hp

theorem calculateWeightedScore_nil : calculateWeightedScore [] = 0 := by
  simp [calculateWeightedScore]

theorem calculateWeightedScore_cases {ms : List IntentMatch}
    (hw : ∀ m ∈ ms, (0.1 : ℚ) ≤ m.weight) :
    calculateWeightedScore ms = 0 ∨
      ((0.52 : ℚ) ≤ calculateWeightedScore ms ∧ calculateWeightedScore ms ≤ 0.95) := by
  cases ms with
  | nil => exact Or.inl calculateWeightedScore_nil
  | cons m rest =>
    right
    have hm : (0.1 : ℚ) ≤ m.weight := hw m (List.mem_cons_self m rest)
    have hrest : 0 ≤ (rest.map (·.weight)).sum := by
      apply List.sum_nonneg
      intro x hx
      simp only [List.mem_map] at hx
      obtain ⟨m', hm', rfl⟩ := hx
      have := hw m' (List.mem_cons_of_mem m hm')
      linarith
    have hlen : (1 : ℚ) ≤ ((m :: rest).length : ℚ) := by
      simp only [List.length_cons]
      push_cast
      have hnn : (0 : ℚ) ≤ (rest.length : ℚ) := Nat.cast_nonneg rest.length
      linarith
    have hbonus : (0.02 : ℚ) ≤ min 0.1 (((m :: rest).length : ℚ) * 0.02) := by
      apply le_min (by norm_num)
      nlinarith
    have htw : (0.1 : ℚ) ≤ ((m :: rest).map (·.weight)).sum := by
      simp only [List.map_cons, List.sum_cons]
      linarith
    simp only [calculateWeightedScore, List.isEmpty_cons, Bool.false_eq_true, if_false]
    constructor
    · apply le_min (by norm_num)
      linarith
    · exact min_le_left _ _

/-- Every weight of the five intent dictionaries is at least `0.1`. -/
theorem rti_weights_ge : ∀ w ∈ RTI_KEYWORDS.map Prod.snd, (0.1 : ℚ) ≤ w := by
  intro w hw
  fin_cases hw <;> norm_num

theorem complaint_weights_ge : ∀ w ∈ COMPLAINT_KEYWORDS.map Prod.snd, (0.1 : ℚ) ≤ w := by
  intro w hw
  fin_cases hw <;> norm_num

theorem appeal_weights_ge : ∀ w ∈ APPEAL_KEYWORDS.map Prod.snd, (0.1 : ℚ) ≤ w := by
  intro w hw
  fin_cases hw <;> norm_num

theorem followup_weights_ge : ∀ w ∈ FOLLOW_UP_KEYWORDS.map Prod.snd, (0.1 : ℚ) ≤ w := by
  intro w hw
  fin_cases hw <;> norm_num

theorem escalation_weights_ge : ∀ w ∈ ESCALATION_KEYWORDS.map Prod.snd, (0.1 : ℚ) ≤ w := by
  intro w hw
  fin_cases hw <;> norm_num

/-- Each row of the score table carries only dictionary weights, all `≥ 0.1`. -/
theorem table_weights_ge {text : String} {s : ScoredIntent}
    (hs : s ∈ scoreTable text) : ∀ m ∈ s.ms, (0.1 : ℚ) ≤ m.weight := by
  simp only [scoreTable, List.mem_cons, List.not_mem_nil, or_false] at hs
  rcases hs with rfl | rfl | rfl | rfl | rfl <;> intro m hm
  · exact rti_weights_ge _ (weight_mem_of_match hm)
  · exact complaint_weights_ge _ (weight_mem_of_match hm)
  · exact appeal_weights_ge _ (weight_mem_of_match hm)
  · exact followup_weights_ge _ (weight_mem_of_match hm)
  · exact escalation_weights_ge _ (weight_mem_of_match hm)

/-- Every raw category score is `0` or lies in `[0.52, 0.95]`. -/
theorem table_score_cases {text : String} {s : ScoredIntent}
    (hs : s ∈ scoreTable text) :
    s.score = 0 ∨ ((0.52 : ℚ) ≤ s.score ∧ s.score ≤ 0.95) := by
  have hw := table_weights_ge hs
  simp only [scoreTable, List.mem_cons, List.not_mem_nil, or_false] at hs
  rcases hs with rfl | rfl | rfl | rfl | rfl <;>
    exact calculateWeightedScore_cases hw

theorem table_score_bounds {text : String} {s : ScoredIntent}
    (hs : s ∈ scoreTable text) : 0 ≤ s.score ∧ s.score ≤ 0.95 := by
  rcases table_score_cases hs with h | ⟨h1, h2⟩
  · rw [h]; norm_num
  · exact ⟨by linarith, h2⟩

/-! ## Lemmas about first-strict-max folds -/

theorem pickBest_cons (y : ScoredIntent) (ys : List ScoredIntent) (x : ScoredIntent) :
    pickBest (y :: ys) x = pickBest ys (if x.score < y.score then y else x) := rfl

theorem pickBest_mem (xs : List ScoredIntent) (x : ScoredIntent) :
    pickBest xs x ∈ x :: xs := by
  induction xs generalizing x with
  | nil => simp [pickBest]
  | cons y ys ih =>
    rw [pickBest_cons]
    have h := ih (if x.score < y.score then y else x)
    rcases List.mem_cons.mp h with h' | h'
    · rw [h']
      split <;> simp
    · simp [h']

theorem pickBest_ge (xs : List ScoredIntent) (x : ScoredIntent) :
    ∀ y ∈ x :: xs, y.score ≤ (pickBest xs x).score := by
  induction xs generalizing x with
  | nil =>
    intro y hy
    simp only [List.mem_singleton] at hy
    subst hy
    simp [pickBest]
  | cons z zs ih =>
    intro y hy
    rw [pickBest_cons]
    have hinit : x.score ≤ (if x.score < z.score then z else x).score ∧
        z.score ≤ (if x.score < z.score then z else x).score := by
      split <;> constructor <;> simp_all <;> linarith
    rcases List.mem_cons.mp hy with rfl | hy'
    · exact le_trans hinit.1
        (ih _ _ (List.mem_cons_self _ _))
    · rcases List.mem_cons.mp hy' with rfl | hy''
      · exact le_trans hinit.2 (ih _ _ (List.mem_cons_self _ _))
      · exact ih _ _ (List.mem_cons_of_mem _ hy'')

theorem foldl_max_init (xs : List ℚ) (x : ℚ) : x ≤ xs.foldl max x := by
  induction xs generalizing x with
  | nil => simp
  | cons y ys ih =>
    simp only [List.foldl_cons]
    exact le_trans (le_max_left x y) (ih (max x y))

theorem foldl_max_mem_le {y : ℚ} {xs : List ℚ} (x : ℚ) (hy : y ∈ xs) :
    y ≤ xs.foldl max x := by
  induction xs generalizing x with
  | nil => cases hy
  | cons z zs ih =>
    simp only [List.foldl_cons]
    rcases List.mem_cons.mp hy with rfl | hy'
    · exact le_trans (le_max_right x y) (foldl_max_init zs (max x y))
    · exact ih (max x z) hy'

theorem foldl_max_mem (xs : List ℚ) (x : ℚ) : xs.foldl max x ∈ x :: xs := by
  induction xs generalizing x with
  | nil => simp
  | cons y ys ih =>
    simp only [List.foldl_cons]
    rcases List.mem_cons.mp (ih (max x y)) with h | h
    · rcases max_choice x y with hm | hm <;> rw [h, hm] <;> simp
    · simp [h]

theorem listMaxQ_mem {l : List ℚ} (h : l ≠ []) : listMaxQ l ∈ l := by
  cases l with
  | nil => exact absurd rfl h
  | cons x xs => exact foldl_max_mem xs x

theorem le_listMaxQ {y : ℚ} {l : List ℚ} (hy : y ∈ l) : y ≤ listMaxQ l := by
  cases l with
  | nil => cases hy
  | cons x xs =>
    rcases List.mem_cons.mp hy with rfl | hy'
    · exact foldl_max_init xs y
    · exact foldl_max_mem_le x hy'

theorem listMaxQ_nonneg {l : List ℚ} (h : ∀ x ∈ l, 0 ≤ x) : 0 ≤ listMaxQ l := by
  cases l with
  | nil => simp [listMaxQ]
  | cons x xs =>
    exact le_trans (h x (List.mem_cons_self x xs)) (le_listMaxQ (List.mem_cons_self x xs))

/-! ## Lemmas about the best-intent selection -/

theorem scoreTable_ne_nil (text : String) : scoreTable text ≠ [] := by
  simp [scoreTable]

theorem bestScored_mem (text : String) : bestScored text ∈ scoreTable text := by
  cases h : scoreTable text with
  | nil => exact absurd h (scoreTable_ne_nil text)
  | cons x xs =>
    have he : bestScored text = pickBest xs x := by
      unfold bestScored
      rw [h]
    rw [he]
    exact pickBest_mem xs x

theorem bestScored_ge (text : String) :
    ∀ s ∈ scoreTable text, s.score ≤ (bestScored text).score := by
  intro s hs
  cases h : scoreTable text with
  | nil => exact absurd h (scoreTable_ne_nil text)
  | cons x xs =>
    have he : bestScored text = pickBest xs x := by
      unfold bestScored
      rw [h]
    rw [he]
    rw [h] at hs
    exact pickBest_ge xs x s hs

theorem bestScored_score (text : String) :
    (bestScored text).score = bestRawScore text := by
  apply le_antisymm
  · exact le_listMaxQ (List.mem_map_of_mem (·.score) (bestScored_mem text))
  · have hne : rawScores text ≠ [] := by simp [rawScores, scoreTable]
    have hmem := listMaxQ_mem hne
    simp only [rawScores, List.mem_map] at hmem
    obtain ⟨s, hs, heq⟩ := hmem
    calc bestRawScore text = s.score := by rw [bestRawScore, heq, rawScores]
    _ ≤ (bestScored text).score := bestScored_ge text s hs

theorem bestScored_intent_ne_unknown (text : String) :
    (bestScored text).intent ≠ IntentType.unknown := by
  have h := bestScored_mem text
  simp only [scoreTable, List.mem_cons, List.not_mem_nil, or_false] at h
  rcases h with h | h | h | h | h <;> rw [h] <;> simp

theorem bestScored_score_cases (text : String) :
    (bestScored text).score = 0 ∨
      ((0.52 : ℚ) ≤ (bestScored text).score ∧ (bestScored text).score ≤ 0.95) :=
  table_score_cases (bestScored_mem text)

/-! ## Lemmas about `classify_intent_detailed` -/

theorem classify_confidence (text : String) :
    (classifyIntentDetailed text).confidence = cappedScore text := rfl

theorem classify_intent_eq (text : String) :
    (classifyIntentDetailed text).intent =
      if cappedScore text < 0.3 then IntentType.unknown
      else (bestScored text).intent := by
  simp only [classifyIntentDetailed]

theorem cappedScore_le (text : String) :
    cappedScore text ≤ (bestScored text).score := by
  unfold cappedScore
  cases ambigPairOf text
  · exact le_refl _
  · exact min_le_left _ _

theorem cappedScore_nonneg (text : String) : 0 ≤ cappedScore text := by
  have hb := (table_score_bounds (bestScored_mem text)).1
  unfold cappedScore
  cases ambigPairOf text
  · exact hb
  · exact le_min hb (by norm_num)

theorem cappedScore_le_095 (text : String) : cappedScore text ≤ 0.95 :=
  le_trans (cappedScore_le text) (table_score_bounds (bestScored_mem text)).2

theorem classify_unknown_iff (text : String) :
    (classifyIntentDetailed text).intent = IntentType.unknown ↔
      (classifyIntentDetailed text).confidence < 0.3 := by
  rw [classify_intent_eq, classify_confidence]
  split
  · next h => exact iff_of_true rfl h
  · next h => exact iff_of_false (bestScored_intent_ne_unknown text) h

/-! ## Lemmas about the ambiguity cap -/

instance : IsTotal ℚ fun a b : ℚ => b ≤ a := ⟨fun a b => le_total b a⟩

instance : IsTrans ℚ fun a b : ℚ => b ≤ a := ⟨fun _ _ _ h h2 => le_trans h2 h⟩

theorem map_score_filter (l : List ScoredIntent) :
    (l.filter fun s => decide ((0.5 : ℚ) < s.score)).map (·.score)
      = (l.map (·.score)).filter fun q => decide ((0.5 : ℚ) < q) := by
  induction l with
  | nil => rfl
  | cons x xs ih =>
    by_cases h : (0.5 : ℚ) < x.score <;>
      simp [List.filter_cons, h, ih]

theorem highScores_sorted (text : String) :
    (highScoresOf text).Sorted fun a b : ℚ => b ≤ a :=
  List.sorted_insertionSort _ _

theorem highScores_perm (text : String) :
    (highScoresOf text).Perm
      ((rawScores text).filter fun q => decide ((0.5 : ℚ) < q)) := by
  unfold highScoresOf rawScores
  rw [map_score_filter]
  exact List.perm_insertionSort _ _

theorem rawScores_length (text : String) : (rawScores text).length = 5 := by
  simp [rawScores, scoreTable]

theorem rawScores_ne_nil (text : String) : rawScores text ≠ [] := by
  simp [rawScores, scoreTable]

/-- When the best raw score exceeds `0.6` and the second-best is within `0.1`
of it, the ambiguity cap of `classify_intent_detailed` fires. -/
theorem ambig_fires (text : String)
    (hgt : (0.6 : ℚ) < bestRawScore text)
    (hclose : bestRawScore text - secondRawScore text < 0.1) :
    cappedScore text = min (bestScored text).score 0.6 := by
  set B := bestRawScore text with hBdef
  set S := secondRawScore text with hSdef
  have hBmem : B ∈ rawScores text := listMaxQ_mem (rawScores_ne_nil text)
  have hS5 : (0.5 : ℚ) < S := by linarith
  have herase_len : ((rawScores text).erase B).length = 4 := by
    rw [List.length_erase_of_mem hBmem, rawScores_length]
  have herase_ne : (rawScores text).erase B ≠ [] := by
    intro hnil
    rw [hnil] at herase_len
    simp at herase_len
  have hSmem : S ∈ (rawScores text).erase B := listMaxQ_mem herase_ne
  have hperm1 : (rawScores text).Perm (B :: (rawScores text).erase B) :=
    List.perm_cons_erase hBmem
  have hpB : decide ((0.5 : ℚ) < B) = true := by
    simp only [decide_eq_true_eq]
    linarith
  have hfiltperm :
      ((rawScores text).filter fun q => decide ((0.5 : ℚ) < q)).Perm
        (B :: ((rawScores text).erase B).filter fun q => decide ((0.5 : ℚ) < q)) := by
    have := hperm1.filter (fun q => decide ((0.5 : ℚ) < q))
    rw [List.filter_cons] at this
    simpa only [hpB, if_true] using this
  have hperm : (highScoresOf text).Perm
      (B :: ((rawScores text).erase B).filter fun q => decide ((0.5 : ℚ) < q)) :=
    (highScores_perm text).trans hfiltperm
  have hSfilt : S ∈ ((rawScores text).erase B).filter fun q => decide ((0.5 : ℚ) < q) := by
    rw [List.mem_filter]
    exact ⟨hSmem, by simp only [decide_eq_true_eq]; linarith⟩
  have hlen2 : 2 ≤ (highScoresOf text).length := by
    rw [hperm.length_eq]
    simp only [List.length_cons]
    have : 0 < (((rawScores text).erase B).filter fun q => decide ((0.5 : ℚ) < q)).length :=
      List.length_pos.mpr (List.ne_nil_of_mem hSfilt)
    omega
  obtain ⟨s0, s1, rest, hhs⟩ :
      ∃ s0 s1 rest, highScoresOf text = s0 :: s1 :: rest := by
    cases hq : highScoresOf text with
    | nil => rw [hq] at hlen2; simp at hlen2
    | cons a tl =>
      cases tl with
      | nil => rw [hq] at hlen2; simp at hlen2
      | cons b tl2 => exact ⟨a, b, tl2, rfl⟩
  have hsorted := highScores_sorted text
  rw [hhs] at hsorted hperm
  -- s0 is the best raw score
  have hs0_le_B : s0 ≤ B := by
    have : s0 ∈ (rawScores text).filter fun q => decide ((0.5 : ℚ) < q) := by
      have := (highScores_perm text).mem_iff.mp (by rw [hhs]; exact List.mem_cons_self _ _)
      exact this
    exact le_listMaxQ (List.mem_of_mem_filter this)
  have hB_le_s0 : B ≤ s0 := by
    have hBin : B ∈ s0 :: s1 :: rest := hperm.symm.mem_iff.mp (List.mem_cons_self _ _)
    rcases List.mem_cons.mp hBin with rfl | hBtl
    · exact le_refl _
    · exact List.rel_of_sorted_cons hsorted B hBtl
  have hs0B : s0 = B := le_antisymm hs0_le_B hB_le_s0
  -- s1 dominates the second-best raw score
  have htailperm : (s1 :: rest).Perm
      (((rawScores text).erase B).filter fun q => decide ((0.5 : ℚ) < q)) := by
    rw [hs0B] at hperm
    exact hperm.cons_inv
  have hS_le_s1 : S ≤ s1 := by
    have hSin : S ∈ s1 :: rest := htailperm.symm.mem_iff.mp hSfilt
    rcases List.mem_cons.mp hSin with rfl | hStl
    · exact le_refl _
    · exact List.rel_of_sorted_cons hsorted.of_cons S hStl
  have hfire : s0 - s1 < 0.1 := by
    rw [hs0B]
    linarith
  have hamb : ambigPairOf text = some (s0, s1) := by
    unfold ambigPairOf
    rw [hhs]
    show (if s0 - s1 < 0.1 then some (s0, s1) else none) = some (s0, s1)
    exact if_pos hfire
  unfold cappedScore
  rw [hamb]

/-! ## Lemmas about keyword scanning on degenerate input -/

theorem substrAt_subset {pat t : List Char} {i : ℕ} (h : substrAt pat t i = true) :
    ∀ c ∈ pat, c ∈ t := by
  simp only [substrAt, decide_eq_true_eq] at h
  intro c hc
  rw [← h] at hc
  exact List.mem_of_mem_drop (List.mem_of_mem_take hc)

theorem kwMatchAt_false_of_ws {kw t : List Char} {single : Bool} {i : ℕ}
    (hws : ∀ c ∈ t, isPySpace c = true)
    (hkw : ∃ c ∈ kw, isPySpace c = false) :
    kwMatchAt kw t single i = false := by
  obtain ⟨c, hc, hcws⟩ := hkw
  cases hsub : substrAt kw t i with
  | false => simp [kwMatchAt, hsub]
  | true =>
    have := hws c (substrAt_subset hsub c hc)
    rw [this] at hcws
    cases hcws

theorem scanPositions_nil {kw t : List Char} {single : Bool}
    (h : ∀ i, kwMatchAt kw t single i = false) (fuel i : ℕ) :
    scanPositions kw t single fuel i = [] := by
  induction fuel generalizing i with
  | zero => rfl
  | succ n ih =>
    simp only [scanPositions, h i, if_false]
    split
    · rfl
    · exact ih (i + 1)

theorem toLower_ws {c : Char} (h : isPySpace c = true) : c.toLower = c := by
  simp only [isPySpace, Bool.or_eq_true, decide_eq_true_eq] at h
  rcases h with ((((rfl | rfl) | rfl) | rfl) | rfl) | rfl <;> decide

theorem lowerStr_ws {t : List Char} (h : ∀ c ∈ t, isPySpace c = true) :
    ∀ c ∈ lowerStr t, isPySpace c = true := by
  intro c hc
  simp only [lowerStr, List.mem_map] at hc
  obtain ⟨c0, hc0, rfl⟩ := hc
  rw [toLower_ws (h c0 hc0)]
  exact h c0 hc0

theorem kwPositions_nil_of_ws {kw : String} {t : List Char}
    (hws : ∀ c ∈ t, isPySpace c = true)
    (hkw : ∃ c ∈ kw.data, isPySpace c = false) :
    kwPositions kw t = [] := by
  unfold kwPositions
  exact scanPositions_nil
    (fun i => kwMatchAt_false_of_ws (lowerStr_ws hws) hkw) _ _

theorem findKeywordMatches_eq_nil {kws : List (String × ℚ)} {cat : String}
    {t : List Char} (h : ∀ p ∈ kws, kwPositions p.1 t = []) :
    findKeywordMatches kws cat t = [] := by
  unfold findKeywordMatches
  induction kws with
  | nil => rfl
  | cons p ps ih =>
    rw [List.flatMap_cons, h p (List.mem_cons_self p ps), List.map_nil, List.nil_append]
    exact ih fun q hq => h q (List.mem_cons_of_mem p hq)

theorem rti_kw_nonws : ∀ p ∈ RTI_KEYWORDS, ∃ c ∈ p.1.data, isPySpace c = false := by
  decide

theorem complaint_kw_nonws :
    ∀ p ∈ COMPLAINT_KEYWORDS, ∃ c ∈ p.1.data, isPySpace c = false := by
  decide

theorem appeal_kw_nonws :
    ∀ p ∈ APPEAL_KEYWORDS, ∃ c ∈ p.1.data, isPySpace c = false := by
  decide

theorem followup_kw_nonws :
    ∀ p ∈ FOLLOW_UP_KEYWORDS, ∃ c ∈ p.1.data, isPySpace c = false := by
  decide

theorem escalation_kw_nonws :
    ∀ p ∈ ESCALATION_KEYWORDS, ∃ c ∈ p.1.data, isPySpace c = false := by
  decide

/-- On empty or whitespace-only input every score table row is empty. -/
theorem scoreTable_ws {text : String} (hws : ∀ c ∈ text.data, isPySpace c = true) :
    scoreTable text =
      [⟨.rti, 0, []⟩, ⟨.complaint, 0, []⟩, ⟨.appeal, 0, []⟩,
       ⟨.followUp, 0, []⟩, ⟨.escalation, 0, []⟩] := by
  have h1 := @findKeywordMatches_eq_nil RTI_KEYWORDS "rti" text.data
    fun p hp => kwPositions_nil_of_ws hws (rti_kw_nonws p hp)
  have h2 := @findKeywordMatches_eq_nil COMPLAINT_KEYWORDS "complaint" text.data
    fun p hp => kwPositions_nil_of_ws hws (complaint_kw_nonws p hp)
  have h3 := @findKeywordMatches_eq_nil APPEAL_KEYWORDS "appeal" text.data
    fun p hp => kwPositions_nil_of_ws hws (appeal_kw_nonws p hp)
  have h4 := @findKeywordMatches_eq_nil FOLLOW_UP_KEYWORDS "follow_up" text.data
    fun p hp => kwPositions_nil_of_ws hws (followup_kw_nonws p hp)
  have h5 := @findKeywordMatches_eq_nil ESCALATION_KEYWORDS "escalation" text.data
    fun p hp => kwPositions_nil_of_ws hws (escalation_kw_nonws p hp)
  simp only [scoreTable, h1, h2, h3, h4, h5, calculateWeightedScore_nil]

/-- Empty or whitespace-only input classifies as `UNKNOWN` with confidence 0. -/
theorem classify_ws {text : String} (hws : ∀ c ∈ text.data, isPySpace c = true) :
    classifyIntent text = (IntentType.unknown, 0) := by
  have htab := scoreTable_ws hws
  have hlt : ¬ ((0 : ℚ) < 0) := lt_irrefl 0
  have hbest : bestScored text = ⟨.rti, 0, []⟩ := by
    have he : bestScored text =
        pickBest [⟨.complaint, 0, []⟩, ⟨.appeal, 0, []⟩,
          ⟨.followUp, 0, []⟩, ⟨.escalation, 0, []⟩] ⟨.rti, 0, []⟩ := by
      unfold bestScored
      rw [htab]
    rw [he]
    simp [pickBest, hlt]
  have hd5 : decide ((0.5 : ℚ) < 0) = false := by
    rw [decide_eq_false_iff_not]
    norm_num
  have hhs : highScoresOf text = [] := by
    unfold highScoresOf
    rw [htab]
    simp [List.filter, hd5]
  have hcap : cappedScore text = 0 := by
    unfold cappedScore ambigPairOf
    rw [hhs, hbest]
  have h03 : (0 : ℚ) < 0.3 := by norm_num
  unfold classifyIntent
  rw [Prod.ext_iff]
  refine ⟨?_, ?_⟩
  · show (classifyIntentDetailed text).intent = IntentType.unknown
    rw [classify_intent_eq, hcap]
    simp [h03]
  · show (classifyIntentDetailed text).confidence = 0
    rw [classify_confidence, hcap]

/-! ## Lemmas about the orchestrator stages -/

theorem computeSimilarity_nonneg (rawSim : String → String → ℚ) (a b : String) :
    0 ≤ computeSimilarity rawSim a b :=
  le_max_left 0 _

theorem maxSim_nonneg (ext : ExternalNLP) (text : String) (tpls : List String) :
    0 ≤ listMaxQ (tpls.map fun tpl => computeSimilarity ext.rawSim text tpl) := by
  apply listMaxQ_nonneg
  intro x hx
  simp only [List.mem_map] at hx
  obtain ⟨tpl, _, rfl⟩ := hx
  exact computeSimilarity_nonneg _ _ _

theorem useNlpBelow_eq : Thresholds.USE_NLP_BELOW = 0.7 := by
  norm_num [Thresholds.USE_NLP_BELOW]

theorem shouldUseNlp_lt {c : ℚ} (h : shouldUseNlp c = true) : c < 0.7 := by
  rw [shouldUseNlp, useNlpBelow_eq, decide_eq_true_eq] at h
  exact h

theorem shouldUseNlp_false {c : ℚ} (h : (0.7 : ℚ) ≤ c) : shouldUseNlp c = false := by
  rw [shouldUseNlp, useNlpBelow_eq, decide_eq_false_iff_not, not_lt]
  exact h

/-- The semantic stage never lowers the confidence it receives, provided an
`UNKNOWN` intent arrives with the sub-floor confidence the rule engine gives
it. -/
theorem semanticStage_conf_ge (ext : ExternalNLP) (text : String)
    (intent : OrchIntent) (c2 : ℚ)
    (hunk : intent = .unknown → c2 < 0.3) :
    c2 ≤ (semanticStage ext text intent c2).2.1 := by
  unfold semanticStage
  cases hb : shouldUseNlp c2 with
  | false => simp
  | true =>
    have hc7 : c2 < 0.7 := shouldUseNlp_lt hb
    simp only [if_true]
    cases hf : ext.simFails with
    | true => simp
    | false =>
      simp only [Bool.false_eq_true, if_false]
      by_cases hu : intent = .unknown
      · have hc3 := hunk hu
        simp only [hu, if_true]
        set mr := listMaxQ (rtiTemplates.map fun tpl => computeSimilarity ext.rawSim text tpl)
        set mc := listMaxQ (complaintTemplates.map fun tpl => computeSimilarity ext.rawSim text tpl)
        split
        · next h => nlinarith [h.2]
        · split
          · next h => nlinarith [h.2]
          · simp
      · simp only [hu, if_false]
        have hb0 : 0 ≤ max
            (listMaxQ (rtiTemplates.map fun tpl => computeSimilarity ext.rawSim text tpl))
            (listMaxQ (complaintTemplates.map fun tpl => computeSimilarity ext.rawSim text tpl)) :=
          le_trans (maxSim_nonneg ext text rtiTemplates) (le_max_left _ _)
        refine le_min (by linarith) (by nlinarith)

theorem semanticStage_skip {ext : ExternalNLP} {text : String}
    {intent : OrchIntent} {c2 : ℚ} (h : shouldUseNlp c2 = false) :
    semanticStage ext text intent c2 = (intent, c2, [.distilbertSkippedConfident]) := by
  unfold semanticStage
  rw [h]
  rfl

theorem semanticStage_invoked_iff (ext : ExternalNLP) (text : String)
    (intent : OrchIntent) (c2 : ℚ) :
    PathStep.distilbertInvoked ∈ (semanticStage ext text intent c2).2.2 ↔
      shouldUseNlp c2 = true := by
  unfold semanticStage
  cases hb : shouldUseNlp c2 with
  | false => simp
  | true =>
    simp only [if_true, iff_true]
    split_ifs <;> simp

theorem classifyIntent_snd (text : String) :
    (classifyIntent text).2 = cappedScore text := rfl

theorem classifyIntent_fst (text : String) :
    (classifyIntent text).1 = (classifyIntentDetailed text).intent := rfl

/-- The (capped) rule confidence never exceeds each boost stage. -/
theorem boost_step_ge {x : ℚ} (hx : x ≤ 0.95) : x ≤ min 0.95 (x + 0.1) :=
  le_min hx (by linarith)

theorem preSemantic_ge_rule (text : String) :
    (classifyIntent text).2 ≤ preSemanticConfidence text := by
  have h95 : (classifyIntent text).2 ≤ 0.95 := by
    rw [classifyIntent_snd]
    exact cappedScore_le_095 text
  simp only [preSemanticConfidence]
  cases h1 : rtiBoostApplies ((intentOfRule (classifyIntent text).1).getD .unknown)
      (detectLegalTriggers text) <;>
    cases h2 : grievanceBoostApplies ((intentOfRule (classifyIntent text).1).getD .unknown)
        (detectLegalTriggers text) <;>
      simp only [h1, h2, Bool.false_eq_true, if_false, if_true, eq_self_iff_true,
        le_refl] <;>
      first
        | exact le_refl _
        | exact boost_step_ge h95
        | exact le_trans (boost_step_ge h95) (boost_step_ge (min_le_left _ _))

theorem preSemantic_le_095 (text : String) : preSemanticConfidence text ≤ 0.95 := by
  have h95 : (classifyIntent text).2 ≤ 0.95 := by
    rw [classifyIntent_snd]
    exact cappedScore_le_095 text
  simp only [preSemanticConfidence]
  split
  · exact min_le_left _ _
  · split
    · exact min_le_left _ _
    · exact h95

/-- When the rule engine returns `UNKNOWN` neither boost applies. -/
theorem preSemantic_unknown {text : String}
    (h : (classifyIntent text).1 = IntentType.unknown) :
    preSemanticConfidence text = (classifyIntent text).2 := by
  simp only [preSemanticConfidence]
  rw [h]
  simp [rtiBoostApplies, grievanceBoostApplies, intentOfRule]

/-- The full decision path of the orchestrator body. -/
theorem inferenceBody_path (ext : ExternalNLP) (text : String) (intent : OrchIntent) :
    (inferenceBody ext text intent).decisionPath =
      ([.ruleEngine,
        .legalTriggersStep (detectLegalTriggers text).rtiSections.length
          (detectLegalTriggers text).grievanceMarkers.length,
        .spacyNLP, .confidenceGate]
        ++ (if rtiBoostApplies intent (detectLegalTriggers text) then [.rtiSectionsBoost] else [])
        ++ (if grievanceBoostApplies intent (detectLegalTriggers text) then [.grievanceBoost] else []))
      ++ (semanticStage ext text intent (preSemanticConfidence text)).2.2
      ++ [.documentTypeStep
            (determineDocumentType text.data
              (semanticStage ext text intent (preSemanticConfidence text)).1).1] := rfl

theorem inferenceBody_confidence (ext : ExternalNLP) (text : String) (intent : OrchIntent) :
    (inferenceBody ext text intent).confidence =
      (semanticStage ext text intent (preSemanticConfidence text)).2.1 := rfl

theorem inferenceBody_intent (ext : ExternalNLP) (text : String) (intent : OrchIntent) :
    (inferenceBody ext text intent).intent =
      (semanticStage ext text intent (preSemanticConfidence text)).1 := rfl

/-- STEP 2 always runs: `"spaCy NLP"` appears in every decision path. -/
theorem spacy_mem_body (ext : ExternalNLP) (text : String) (intent : OrchIntent) :
    PathStep.spacyNLP ∈ (inferenceBody ext text intent).decisionPath := by
  rw [inferenceBody_path]
  simp

/-- The DistilBERT stage is marked invoked exactly when
`should_use_nlp(adjusted_confidence)` holds. -/
theorem invoked_mem_body_iff (ext : ExternalNLP) (text : String) (intent : OrchIntent) :
    PathStep.distilbertInvoked ∈ (inferenceBody ext text intent).decisionPath ↔
      shouldUseNlp (preSemanticConfidence text) = true := by
  rw [inferenceBody_path]
  rw [← semanticStage_invoked_iff ext text intent (preSemanticConfidence text)]
  cases hb1 : rtiBoostApplies intent (detectLegalTriggers text) <;>
    cases hb2 : grievanceBoostApplies intent (detectLegalTriggers text) <;>
      simp [hb1, hb2]

/-! ## Concrete evaluations used by witnesses and counterexamples -/

theorem pickBest_nil (x : ScoredIntent) : pickBest [] x = x := rfl

set_option maxHeartbeats 1000000 in
theorem rtiMatches_rti :
    findKeywordMatches RTI_KEYWORDS "rti" "rti".data = [⟨"rti", "rti", 0.3, 0⟩] := rfl

theorem score_single_03 {kw cat : String} {i : ℕ} :
    calculateWeightedScore [(⟨kw, cat, 0.3, i⟩ : IntentMatch)] = 0.72 := by
  simp only [calculateWeightedScore, List.isEmpty_cons, Bool.false_eq_true, if_false,
    List.map_cons, List.map_nil, List.sum_cons, List.sum_nil, List.length_cons,
    List.length_nil]
  norm_num [min_def]

theorem score_single_02 {kw cat : String} {i : ℕ} :
    calculateWeightedScore [(⟨kw, cat, 0.2, i⟩ : IntentMatch)] = 0.62 := by
  simp only [calculateWeightedScore, List.isEmpty_cons, Bool.false_eq_true, if_false,
    List.map_cons, List.map_nil, List.sum_cons, List.sum_nil, List.length_cons,
    List.length_nil]
  norm_num [min_def]

theorem scoreTable_rti :
    scoreTable "rti" =
      [⟨.rti, 0.72, [⟨"rti", "rti", 0.3, 0⟩]⟩, ⟨.complaint, 0, []⟩,
       ⟨.appeal, 0, []⟩, ⟨.followUp, 0, []⟩, ⟨.escalation, 0, []⟩] := by
  have hc := @findKeywordMatches_eq_nil COMPLAINT_KEYWORDS "complaint"
    "rti".data (by decide)
  have ha := @findKeywordMatches_eq_nil APPEAL_KEYWORDS "appeal"
    "rti".data (by decide)
  have hf := @findKeywordMatches_eq_nil FOLLOW_UP_KEYWORDS "follow_up"
    "rti".data (by decide)
  have he := @findKeywordMatches_eq_nil ESCALATION_KEYWORDS "escalation"
    "rti".data (by decide)
  have h0 : scoreTable "rti" =
      [⟨.rti, calculateWeightedScore (findKeywordMatches RTI_KEYWORDS "rti" "rti".data),
        findKeywordMatches RTI_KEYWORDS "rti" "rti".data⟩,
       ⟨.complaint,
        calculateWeightedScore (findKeywordMatches COMPLAINT_KEYWORDS "complaint" "rti".data),
        findKeywordMatches COMPLAINT_KEYWORDS "complaint" "rti".data⟩,
       ⟨.appeal, calculateWeightedScore (findKeywordMatches APPEAL_KEYWORDS "appeal" "rti".data),
        findKeywordMatches APPEAL_KEYWORDS "appeal" "rti".data⟩,
       ⟨.followUp,
        calculateWeightedScore (findKeywordMatches FOLLOW_UP_KEYWORDS "follow_up" "rti".data),
        findKeywordMatches FOLLOW_UP_KEYWORDS "follow_up" "rti".data⟩,
       ⟨.escalation,
        calculateWeightedScore (findKeywordMatches ESCALATION_KEYWORDS "escalation" "rti".data),
        findKeywordMatches ESCALATION_KEYWORDS "escalation" "rti".data⟩] := rfl
  rw [h0, rtiMatches_rti, hc, ha, hf, he, calculateWeightedScore_nil, score_single_03]

theorem bestScored_rti :
    bestScored "rti" = ⟨.rti, 0.72, [⟨"rti", "rti", 0.3, 0⟩]⟩ := by
  have he : bestScored "rti" =
      pickBest [⟨.complaint, 0, []⟩, ⟨.appeal, 0, []⟩, ⟨.followUp, 0, []⟩,
        ⟨.escalation, 0, []⟩] ⟨.rti, 0.72, [⟨"rti", "rti", 0.3, 0⟩]⟩ := by
    unfold bestScored
    rw [scoreTable_rti]
  have hlt : ¬ ((0.72 : ℚ) < 0) := by norm_num
  rw [he, pickBest_cons, if_neg hlt, pickBest_cons, if_neg hlt, pickBest_cons,
    if_neg hlt, pickBest_cons, if_neg hlt, pickBest_nil]

theorem capped_rti : cappedScore "rti" = 0.72 := by
  have hgt : (0.5 : ℚ) < 0.72 := by norm_num
  have hlt : ¬ ((0.5 : ℚ) < 0) := by norm_num
  have hhs : highScoresOf "rti" = [0.72] := by
    unfold highScoresOf
    rw [scoreTable_rti]
    simp only [List.filter_cons, List.filter_nil, decide_eq_true hgt, decide_eq_false hlt]
    rfl
  unfold cappedScore ambigPairOf
  rw [hhs]
  show (bestScored "rti").score = 0.72
  rw [bestScored_rti]

theorem classifyIntent_rti : classifyIntent "rti" = (IntentType.rti, 0.72) := by
  rw [Prod.ext_iff]
  constructor
  · rw [classifyIntent_fst, classify_intent_eq, capped_rti, bestScored_rti,
      if_neg (by norm_num : ¬ ((0.72 : ℚ) < 0.3))]
  · rw [classifyIntent_snd, capped_rti]

set_option maxHeartbeats 1000000 in
theorem appealMatches_review :
    findKeywordMatches APPEAL_KEYWORDS "appeal" "review".data
      = [⟨"review", "appeal", 0.2, 0⟩] := rfl

theorem scoreTable_review :
    scoreTable "review" =
      [⟨.rti, 0, []⟩, ⟨.complaint, 0, []⟩,
       ⟨.appeal, 0.62, [⟨"review", "appeal", 0.2, 0⟩]⟩,
       ⟨.followUp, 0, []⟩, ⟨.escalation, 0, []⟩] := by
  have hr := @findKeywordMatches_eq_nil RTI_KEYWORDS "rti"
    "review".data (by decide)
  have hc := @findKeywordMatches_eq_nil COMPLAINT_KEYWORDS "complaint"
    "review".data (by decide)
  have hf := @findKeywordMatches_eq_nil FOLLOW_UP_KEYWORDS "follow_up"
    "review".data (by decide)
  have he := @findKeywordMatches_eq_nil ESCALATION_KEYWORDS "escalation"
    "review".data (by decide)
  have h0 : scoreTable "review" =
      [⟨.rti, calculateWeightedScore (findKeywordMatches RTI_KEYWORDS "rti" "review".data),
        findKeywordMatches RTI_KEYWORDS "rti" "review".data⟩,
       ⟨.complaint,
        calculateWeightedScore (findKeywordMatches COMPLAINT_KEYWORDS "complaint" "review".data),
        findKeywordMatches COMPLAINT_KEYWORDS "complaint" "review".data⟩,
       ⟨.appeal,
        calculateWeightedScore (findKeywordMatches APPEAL_KEYWORDS "appeal" "review".data),
        findKeywordMatches APPEAL_KEYWORDS "appeal" "review".data⟩,
       ⟨.followUp,
        calculateWeightedScore (findKeywordMatches FOLLOW_UP_KEYWORDS "follow_up" "review".data),
        findKeywordMatches FOLLOW_UP_KEYWORDS "follow_up" "review".data⟩,
       ⟨.escalation,
        calculateWeightedScore (findKeywordMatches ESCALATION_KEYWORDS "escalation" "review".data),
        findKeywordMatches ESCALATION_KEYWORDS "escalation" "review".data⟩] := rfl
  rw [h0, appealMatches_review, hr, hc, hf, he, calculateWeightedScore_nil, score_single_02]

theorem bestScored_review :
    bestScored "review" = ⟨.appeal, 0.62, [⟨"review", "appeal", 0.2, 0⟩]⟩ := by
  have he : bestScored "review" =
      pickBest [⟨.complaint, 0, []⟩, ⟨.appeal, 0.62, [⟨"review", "appeal", 0.2, 0⟩]⟩,
        ⟨.followUp, 0, []⟩, ⟨.escalation, 0, []⟩] ⟨.rti, 0, []⟩ := by
    unfold bestScored
    rw [scoreTable_review]
  have h1 : ¬ ((0 : ℚ) < 0) := by norm_num
  have h2 : (0 : ℚ) < 0.62 := by norm_num
  have h3 : ¬ ((0.62 : ℚ) < 0) := by norm_num
  rw [he, pickBest_cons, if_neg h1, pickBest_cons, if_pos h2, pickBest_cons,
    if_neg h3, pickBest_cons, if_neg h3, pickBest_nil]

theorem capped_review : cappedScore "review" = 0.62 := by
  have hgt : (0.5 : ℚ) < 0.62 := by norm_num
  have hlt : ¬ ((0.5 : ℚ) < 0) := by norm_num
  have hhs : highScoresOf "review" = [0.62] := by
    unfold highScoresOf
    rw [scoreTable_review]
    simp only [List.filter_cons, List.filter_nil, decide_eq_true hgt, decide_eq_false hlt]
    rfl
  unfold cappedScore ambigPairOf
  rw [hhs]
  show (bestScored "review").score = 0.62
  rw [bestScored_review]

theorem classifyIntent_review : classifyIntent "review" = (IntentType.appeal, 0.62) := by
  rw [Prod.ext_iff]
  constructor
  · rw [classifyIntent_fst, classify_intent_eq, capped_review, bestScored_review,
      if_neg (by norm_num : ¬ ((0.62 : ℚ) < 0.3))]
  · rw [classifyIntent_snd, capped_review]

theorem preSem_review : preSemanticConfidence "review" = 0.62 := by
  simp only [preSemanticConfidence]
  rw [classifyIntent_review]
  simp [rtiBoostApplies, grievanceBoostApplies, intentOfRule]

set_option maxHeartbeats 1000000 in
theorem rtiMatches_rc :
    findKeywordMatches RTI_KEYWORDS "rti" "rti complaint".data
      = [⟨"rti", "rti", 0.3, 0⟩] := rfl

set_option maxHeartbeats 1000000 in
theorem complaintMatches_rc :
    findKeywordMatches COMPLAINT_KEYWORDS "complaint" "rti complaint".data
      = [⟨"complaint", "complaint", 0.3, 4⟩] := rfl

theorem scoreTable_rc :
    scoreTable "rti complaint" =
      [⟨.rti, 0.72, [⟨"rti", "rti", 0.3, 0⟩]⟩,
       ⟨.complaint, 0.72, [⟨"complaint", "complaint", 0.3, 4⟩]⟩,
       ⟨.appeal, 0, []⟩, ⟨.followUp, 0, []⟩, ⟨.escalation, 0, []⟩] := by
  have ha := @findKeywordMatches_eq_nil APPEAL_KEYWORDS "appeal"
    "rti complaint".data (by decide)
  have hf := @findKeywordMatches_eq_nil FOLLOW_UP_KEYWORDS "follow_up"
    "rti complaint".data (by decide)
  have he := @findKeywordMatches_eq_nil ESCALATION_KEYWORDS "escalation"
    "rti complaint".data (by decide)
  have h0 : scoreTable "rti complaint" =
      [⟨.rti,
        calculateWeightedScore (findKeywordMatches RTI_KEYWORDS "rti" "rti complaint".data),
        findKeywordMatches RTI_KEYWORDS "rti" "rti complaint".data⟩,
       ⟨.complaint,
        calculateWeightedScore
          (findKeywordMatches COMPLAINT_KEYWORDS "complaint" "rti complaint".data),
        findKeywordMatches COMPLAINT_KEYWORDS "complaint" "rti complaint".data⟩,
       ⟨.appeal,
        calculateWeightedScore (findKeywordMatches APPEAL_KEYWORDS "appeal" "rti complaint".data),
        findKeywordMatches APPEAL_KEYWORDS "appeal" "rti complaint".data⟩,
       ⟨.followUp,
        calculateWeightedScore
          (findKeywordMatches FOLLOW_UP_KEYWORDS "follow_up" "rti complaint".data),
        findKeywordMatches FOLLOW_UP_KEYWORDS "follow_up" "rti complaint".data⟩,
       ⟨.escalation,
        calculateWeightedScore
          (findKeywordMatches ESCALATION_KEYWORDS "escalation" "rti complaint".data),
        findKeywordMatches ESCALATION_KEYWORDS "escalation" "rti complaint".data⟩] := rfl
  rw [h0, rtiMatches_rc, complaintMatches_rc, ha, hf, he, calculateWeightedScore_nil]
  simp only [score_single_03]

theorem rawScores_rc : rawScores "rti complaint" = [0.72, 0.72, 0, 0, 0] := by
  unfold rawScores
  rw [scoreTable_rc]
  rfl

theorem bestRaw_rc : bestRawScore "rti complaint" = 0.72 := by
  unfold bestRawScore
  rw [rawScores_rc]
  have h1 : (0.72 : ℚ) ≤ listMaxQ [0.72, 0.72, 0, 0, 0] :=
    le_listMaxQ (List.mem_cons_self _ _)
  have h2 : listMaxQ ([0.72, 0.72, 0, 0, 0] : List ℚ) ∈
      ([0.72, 0.72, 0, 0, 0] : List ℚ) := listMaxQ_mem (by simp)
  simp only [List.mem_cons, List.not_mem_nil, or_false] at h2
  rcases h2 with h | h | h | h | h <;>
    first
      | exact h
      | (rw [h] at h1; norm_num at h1)

theorem secondRaw_rc : secondRawScore "rti complaint" = 0.72 := by
  unfold secondRawScore
  rw [rawScores_rc, bestRaw_rc]
  have he : ([0.72, 0.72, 0, 0, 0] : List ℚ).erase 0.72 = [0.72, 0, 0, 0] := by
    rw [List.erase_cons_head]
  rw [he]
  have h1 : (0.72 : ℚ) ≤ listMaxQ [0.72, 0, 0, 0] :=
    le_listMaxQ (List.mem_cons_self _ _)
  have h2 : listMaxQ ([0.72, 0, 0, 0] : List ℚ) ∈ ([0.72, 0, 0, 0] : List ℚ) :=
    listMaxQ_mem (by simp)
  simp only [List.mem_cons, List.not_mem_nil, or_false] at h2
  rcases h2 with h | h | h | h <;>
    first
      | exact h
      | (rw [h] at h1; norm_num at h1)

/-! ## Lemmas about placeholder preservation -/

/-- `pat` occurs as a contiguous substring of `t`. -/
def occursIn (pat t : List Char) : Prop := ∃ pre post, t = pre ++ pat ++ post

theorem occursIn_cons {pat t : List Char} (c : Char) (h : occursIn pat t) :
    occursIn pat (c :: t) := by
  obtain ⟨pre, post, rfl⟩ := h
  exact ⟨c :: pre, post, rfl⟩

theorem occursIn_append_left {pat t : List Char} (s : List Char) (h : occursIn pat t) :
    occursIn pat (s ++ t) := by
  obtain ⟨pre, post, rfl⟩ := h
  exact ⟨s ++ pre, post, by simp⟩

theorem containsSub_of_occursIn {pat t : List Char} (h : occursIn pat t) :
    containsSub pat t = true := by
  obtain ⟨pre, post, rfl⟩ := h
  unfold containsSub
  rw [List.any_eq_true]
  refine ⟨pre.length, ?_, ?_⟩
  · rw [List.mem_range]
    simp only [List.length_append]
    omega
  · unfold substrAt
    rw [decide_eq_true_eq, List.append_assoc, List.drop_left, List.take_left]

/-- Dropping the length of the `takeWhile` run is `dropWhile`. -/
theorem drop_takeWhile_length (p : Char → Bool) (cs : List Char) :
    cs.drop (cs.takeWhile p).length = cs.dropWhile p := by
  induction cs with
  | nil => rfl
  | cons c cs ih =>
    by_cases hp : p c
    · simp [List.takeWhile_cons, List.dropWhile_cons, hp, ih]
    · simp [List.takeWhile_cons, List.dropWhile_cons, hp]

/-- Splitting a list at the end of its `takeWhile` run. -/
theorem takeWhile_drop_split (p : Char → Bool) (cs : List Char) :
    cs = cs.takeWhile p ++ cs.drop (cs.takeWhile p).length := by
  rw [drop_takeWhile_length, List.takeWhile_append_dropWhile]

/-- Every name returned by the placeholder scan occurs bracketed in the text. -/
theorem findPlaceholdersAux_occurs :
    ∀ (fuel : ℕ) (t ph : List Char), ph ∈ findPlaceholdersAux fuel t →
      occursIn (bracketed ph) t := by
  intro fuel
  induction fuel with
  | zero =>
    intro t ph h
    cases h
  | succ n ih =>
    intro t ph h
    cases t with
    | nil => cases h
    | cons c cs =>
      by_cases hc : c = '['
      · subst hc
        simp only [findPlaceholdersAux, eq_self_iff_true, if_true] at h
        by_cases hrun : (cs.takeWhile isPhChar).isEmpty = true
        · rw [if_pos hrun] at h
          exact occursIn_cons _ (ih cs ph h)
        · rw [if_neg hrun] at h
          split at h
          · next rest rest2 heq =>
            have hsplit : cs = cs.takeWhile isPhChar ++ (']' :: rest2) := by
              conv_lhs => rw [takeWhile_drop_split isPhChar cs]
              rw [heq]
            simp only [List.mem_cons] at h
            rcases h with rfl | h
            · refine ⟨[], rest2, ?_⟩
              conv_lhs => rw [hsplit]
              simp [bracketed]
            · have hocc := ih rest2 ph h
              have ht : ('[' :: cs) = (('[' :: cs.takeWhile isPhChar) ++ [']']) ++ rest2 := by
                conv_lhs => rw [hsplit]
                simp
              rw [ht]
              exact occursIn_append_left _ hocc
          · exact occursIn_cons _ (ih cs ph h)
      · simp only [findPlaceholdersAux, if_neg hc] at h
        exact occursIn_cons _ (ih cs ph h)

theorem findPlaceholders_occurs {t ph : List Char} (h : ph ∈ findPlaceholders t) :
    occursIn (bracketed ph) t :=
  findPlaceholdersAux_occurs _ t ph h

/-! ## Lemmas about the authority directory -/

theorem lookup_getD_prop {α β : Type} [BEq α] (P : β → Prop) (c : α)
    (l : List (α × β)) (d : β) (h : ∀ p ∈ l, P p.2) (hd : P d) :
    P ((List.lookup c l).getD d) := by
  induction l with
  | nil => exact hd
  | cons p ps ih =>
    obtain ⟨k, v⟩ := p
    simp only [List.lookup]
    cases hb : c == k
    · exact ih fun q hq => h q (List.mem_cons_of_mem _ hq)
    · exact h ⟨k, v⟩ (List.mem_cons_self _ _)

/-- Every department of the directory (and the `general` fallback) lists a
`"pio"` entry first, named `Public Information Officer`. -/
theorem pio_lookup (cat : String) :
    ∃ pio : Authority,
      List.lookup "pio"
          ((List.lookup cat DEPARTMENT_AUTHORITIES).getD generalAuthorities)
        = some pio ∧ pio.name = "Public Information Officer" := by
  apply lookup_getD_prop
    (P := fun dept => ∃ pio : Authority,
      List.lookup "pio" dept = some pio ∧ pio.name = "Public Information Officer")
  · intro p hp
    fin_cases hp <;> exact ⟨_, rfl, rfl⟩
  · exact ⟨_, rfl, rfl⟩

/-! ## Shared concrete-run helpers -/

theorem shouldUseNlp_true {c : ℚ} (h : c < 0.7) : shouldUseNlp c = true := by
  rw [shouldUseNlp, useNlpBelow_eq, decide_eq_true_eq]
  exact h

theorem medium_eq : Thresholds.MEDIUM = 0.7 := by
  norm_num [Thresholds.MEDIUM]

theorem high_eq : Thresholds.HIGH = 0.9 := by
  norm_num [Thresholds.HIGH]

theorem low_eq : Thresholds.LOW = 0.5 := by
  norm_num [Thresholds.LOW]

/-- A fixed valuation of the external model outputs: zero raw similarity,
no exception, empty spaCy results. -/
def constExt : ExternalNLP :=
  { rawSim := fun _ _ => 0, simFails := false, entities := [], keyPhrases := [],
    sentiment := "neutral", departmentMapping := [] }

theorem runInference_rti :
    runInference constExt "rti" = some (inferenceBody constExt "rti" .rti) := by
  unfold runInference
  rw [classifyIntent_rti]
  rfl

theorem runInference_review :
    runInference constExt "review" = some (inferenceBody constExt "review" .appeal) := by
  unfold runInference
  rw [classifyIntent_review]
  rfl

theorem classify_empty : classifyIntent "" = (IntentType.unknown, 0) :=
  classify_ws (by simp)

theorem runInference_empty :
    runInference constExt "" = some (inferenceBody constExt "" .unknown) := by
  unfold runInference
  rw [classify_empty]
  rfl

theorem preSem_empty : preSemanticConfidence "" = 0 := by
  rw [preSemantic_unknown (by rw [classify_empty]), classify_empty]

theorem bestRaw_empty : bestRawScore "" = 0 := by
  have htab := @scoreTable_ws "" (by simp)
  unfold bestRawScore rawScores
  rw [htab]
  have hm := @listMaxQ_mem [0, 0, 0, 0, 0] (by simp)
  simpa using hm

theorem runInference_some {ext : ExternalNLP} {text : String} {res : InferenceResult}
    (h : runInference ext text = some res) :
    ∃ intent, intentOfRule (classifyIntent text).1 = some intent ∧
      res = inferenceBody ext text intent := by
  unfold runInference at h
  split at h
  · cases h
  · next intent heq =>
    exact ⟨intent, heq, (Option.some_injective _ h).symm⟩

/-! ## Claim C1 -/

/-- Claim C1, counterexample: the input `"rti"` has rule-matcher confidence
`0.72 ≥ 0.70`, yet `run_inference` still runs the spaCy entity-extraction
step and its decision path records `"spaCy NLP"` - the entity extractor is
invoked unconditionally, contradicting the claim. -/
theorem c1_counterexample :
    (0.7 : ℚ) ≤ (classifyIntent "rti").2 ∧
    ∃ res, runInference constExt "rti" = some res ∧
      PathStep.spacyNLP ∈ res.decisionPath := by
  refine ⟨by rw [classifyIntent_rti]; norm_num, ?_⟩
  exact ⟨_, runInference_rti, spacy_mem_body _ _ _⟩

/-- Claim C1 (amended): when the rule-matcher confidence is at least the
NLP-escalation threshold `0.70`, the semantic ranker (DistilBERT) is never
invoked and the decision path contains no DistilBERT-invocation step; the
spaCy entity-extraction step, however, always runs and always appears in
the decision path. -/
theorem c1_no_semantic_when_confident (text : String) (ext : ExternalNLP)
    (res : InferenceResult) (hconf : (0.7 : ℚ) ≤ (classifyIntent text).2)
    (hrun : runInference ext text = some res) :
    PathStep.distilbertInvoked ∉ res.decisionPath ∧
      PathStep.spacyNLP ∈ res.decisionPath := by
  obtain ⟨intent, _, rfl⟩ := runInference_some hrun
  constructor
  · rw [invoked_mem_body_iff]
    rw [shouldUseNlp_false (le_trans hconf (preSemantic_ge_rule text))]
    simp
  · exact spacy_mem_body _ _ _

/-- Claim C1, witness: the amended theorem applied to the concrete input
`"rti"` (rule confidence `0.72`). -/
theorem c1_witness :
    PathStep.distilbertInvoked ∉ (inferenceBody constExt "rti" .rti).decisionPath ∧
      PathStep.spacyNLP ∈ (inferenceBody constExt "rti" .rti).decisionPath :=
  c1_no_semantic_when_confident "rti" constExt _
    (by rw [classifyIntent_rti]; norm_num) runInference_rti

/-! ## Claim C2 -/

/-- Claim C2, counterexample: on input `"review"` the combined confidence
after boosting is `0.62 ∈ [0.60, 0.70)`, yet the DistilBERT semantic stage
runs - the orchestrator gates STEP 4 with `should_use_nlp` (threshold
`0.70`), not with `should_use_distilbert` (threshold `0.60`). -/
theorem c2_counterexample :
    preSemanticConfidence "review" = 0.62 ∧
    (0.6 : ℚ) ≤ preSemanticConfidence "review" ∧
    ∃ res, runInference constExt "review" = some res ∧
      PathStep.distilbertInvoked ∈ res.decisionPath := by
  refine ⟨preSem_review, by rw [preSem_review]; norm_num, _, runInference_review, ?_⟩
  rw [invoked_mem_body_iff]
  exact shouldUseNlp_true (by rw [preSem_review]; norm_num)

/-- Claim C2 (amended): in `run_inference` the DistilBERT semantic stage is
invoked if and only if the combined confidence after rule matching and
legal-trigger boosting is below `0.70` (the `USE_NLP_BELOW` threshold); the
`0.60` threshold of `should_use_distilbert` is never consulted. -/
theorem c2_semantic_gate (text : String) (ext : ExternalNLP)
    (res : InferenceResult) (hrun : runInference ext text = some res) :
    PathStep.distilbertInvoked ∈ res.decisionPath ↔
      preSemanticConfidence text < 0.7 := by
  obtain ⟨intent, _, rfl⟩ := runInference_some hrun
  rw [invoked_mem_body_iff, shouldUseNlp, useNlpBelow_eq, decide_eq_true_eq]

/-- Claim C2, witness: the amended theorem applied to input `"review"`
(combined confidence `0.62 < 0.70`), showing the stage was invoked. -/
theorem c2_witness :
    PathStep.distilbertInvoked ∈ (inferenceBody constExt "review" .appeal).decisionPath :=
  (c2_semantic_gate "review" constExt _ runInference_review).mpr
    (by rw [preSem_review]; norm_num)

/-! ## Claim C3 -/

/-- Claim C3: the confidence level is a pure function of the score with the
documented boundaries: `≥ 0.90 ↦ HIGH`, `[0.70, 0.90) ↦ MEDIUM`,
`[0.50, 0.70) ↦ LOW`, `< 0.50 ↦ VERY_LOW`; in particular `0.70 ↦ MEDIUM`
and `0.6999 ↦ LOW`. -/
theorem c3_confidence_levels :
    (∀ s : ℚ, 0 ≤ s → s ≤ 1 →
      ((0.9 ≤ s → getConfidenceLevel s = .high) ∧
       (0.7 ≤ s → s < 0.9 → getConfidenceLevel s = .medium) ∧
       (0.5 ≤ s → s < 0.7 → getConfidenceLevel s = .low) ∧
       (s < 0.5 → getConfidenceLevel s = .veryLow))) ∧
    getConfidenceLevel 0.7 = .medium ∧ getConfidenceLevel 0.6999 = .low := by
  have hlev : ∀ s : ℚ,
      ((0.9 ≤ s → getConfidenceLevel s = .high) ∧
       (0.7 ≤ s → s < 0.9 → getConfidenceLevel s = .medium) ∧
       (0.5 ≤ s → s < 0.7 → getConfidenceLevel s = .low) ∧
       (s < 0.5 → getConfidenceLevel s = .veryLow)) := by
    intro s
    unfold getConfidenceLevel
    rw [high_eq, medium_eq, low_eq]
    split_ifs with h1 h2 h3 <;>
      refine ⟨?_, ?_, ?_, ?_⟩ <;> intros <;> first | rfl | linarith
  refine ⟨fun s _ _ => hlev s, ?_, ?_⟩
  · exact (hlev 0.7).2.1 (by norm_num) (by norm_num)
  · exact (hlev 0.6999).2.2.1 (by norm_num) (by norm_num)

/-- Claim C3, witness: the theorem applied at score `0.95`. -/
theorem c3_witness : getConfidenceLevel 0.95 = ConfidenceLevel.high :=
  (c3_confidence_levels.1 0.95 (by norm_num) (by norm_num)).1 (by norm_num)

/-! ## Claim C4 -/

/-- Claim C4, counterexample: `should_ask_user(0.8, is_legal_content=False,
has_alternatives=True)` returns `True` although the level of `0.8` is
`MEDIUM` (not LOW or VERY_LOW) and the content is not legal-sensitive - the
claimed "iff" fails because medium confidence with alternatives also asks. -/
theorem c4_counterexample :
    shouldAskUser 0.8 false true = true ∧
    getConfidenceLevel 0.8 = ConfidenceLevel.medium ∧
    ¬ (getConfidenceLevel 0.8 = ConfidenceLevel.low ∨
        getConfidenceLevel 0.8 = ConfidenceLevel.veryLow) := by
  have hl : getConfidenceLevel 0.8 = ConfidenceLevel.medium := by
    unfold getConfidenceLevel
    rw [high_eq, medium_eq, low_eq]
    rw [if_neg (by norm_num), if_pos (by norm_num)]
  refine ⟨?_, hl, by rw [hl]; simp⟩
  unfold shouldAskUser
  rw [medium_eq, high_eq]
  rw [if_neg (by simp), if_neg (by norm_num), if_neg (by norm_num)]

/-- Claim C4 (amended): `gate_result` (which has no sensitivity input) sets
`requires_confirmation` iff the level is LOW or VERY_LOW; `should_ask_user`
returns true iff the content is legal-sensitive, or the confidence is below
`0.70`, or it is below `0.90` while alternatives are available - so
legal-sensitive content always requires confirmation, but confirmation is
also requested at MEDIUM confidence when alternatives exist. -/
theorem c4_confirmation_rule :
    (∀ (α : Type) (v : α) (conf : ℚ) (alts : List (String × ℚ)),
      ((gateResult v conf alts).requiresConfirmation = true ↔
        (getConfidenceLevel conf = .low ∨ getConfidenceLevel conf = .veryLow))) ∧
    (∀ (conf : ℚ) (legal alts : Bool),
      (shouldAskUser conf legal alts = true ↔
        (legal = true ∨ conf < 0.7 ∨ (conf < 0.9 ∧ alts = true)))) := by
  constructor
  · intro α v conf alts
    unfold gateResult
    rw [decide_eq_true_eq]
  · intro conf legal alts
    unfold shouldAskUser
    rw [medium_eq, high_eq]
    rcases legal with _ | _
    · rw [if_neg (by simp)]
      by_cases h1 : conf < 0.7
      · rw [if_pos h1]
        simp [h1]
      · rw [if_neg h1]
        by_cases h2 : (0.9 : ℚ) ≤ conf
        · rw [if_pos h2]
          push_neg at h1
          constructor
          · intro h; cases h
          · rintro (h | h | ⟨h, _⟩) <;> first | cases h | linarith
        · rw [if_neg h2]
          push_neg at h1 h2
          constructor
          · intro h
            exact Or.inr (Or.inr ⟨h2, h⟩)
          · rintro (h | h | hconj)
            · cases h
            · linarith
            · exact hconj.2
    · rw [if_pos rfl]
      simp

/-- Claim C4, witness: the amended theorem applied at confidence `0.3`:
confirmation is required because the confidence is below `0.70`. -/
theorem c4_witness : shouldAskUser 0.3 false true = true :=
  (c4_confirmation_rule.2 0.3 false true).mpr (Or.inr (Or.inl (by norm_num)))

/-! ## Claim C5 -/

/-- Claim C5: across a `run_inference` run the confidence never decreases
from stage to stage - the rule-matcher confidence is at most the boosted
pre-semantic confidence, which is at most the final confidence; no stage
replaces the running confidence with a strictly lower value. -/
theorem c5_confidence_monotone (text : String) (ext : ExternalNLP)
    (res : InferenceResult) (hrun : runInference ext text = some res) :
    (classifyIntent text).2 ≤ preSemanticConfidence text ∧
      preSemanticConfidence text ≤ res.confidence := by
  obtain ⟨intent, hcv, rfl⟩ := runInference_some hrun
  refine ⟨preSemantic_ge_rule text, ?_⟩
  rw [inferenceBody_confidence]
  apply semanticStage_conf_ge
  intro hunk
  subst hunk
  have hru : (classifyIntent text).1 = IntentType.unknown := by
    cases h : (classifyIntent text).1 <;>
      first
      | rfl
      | (rw [h] at hcv; simp [intentOfRule] at hcv)
  rw [preSemantic_unknown hru, classifyIntent_snd]
  rw [classifyIntent_fst] at hru
  have := (classify_unknown_iff text).mp hru
  rw [classify_confidence] at this
  exact this

/-- Claim C5, witness: the theorem applied to the concrete run on `"rti"`. -/
theorem c5_witness :
    (classifyIntent "rti").2 ≤ preSemanticConfidence "rti" ∧
      preSemanticConfidence "rti" ≤ (inferenceBody constExt "rti" .rti).confidence :=
  c5_confidence_monotone "rti" constExt _ runInference_rti

/-! ## Claim C6 -/

/-- Claim C6: whenever the best and second-best raw category scores are
within `0.1` of each other (strictly, as the source compares with `<`), the
reported confidence is capped at `0.6`; in particular, when the raw best
score exceeds `0.6`, the reported confidence is exactly `0.6`. -/
theorem c6_ambiguity_cap (text : String)
    (hclose : bestRawScore text - secondRawScore text < 0.1) :
    (classifyIntentDetailed text).confidence ≤ 0.6 ∧
      ((0.6 : ℚ) < bestRawScore text →
        (classifyIntentDetailed text).confidence = 0.6) := by
  by_cases hgt : (0.6 : ℚ) < bestRawScore text
  · have hcap := ambig_fires text hgt hclose
    rw [classify_confidence, hcap, bestScored_score]
    exact ⟨min_le_right _ _, fun _ => min_eq_right (le_of_lt hgt)⟩
  · push_neg at hgt
    refine ⟨?_, fun h => absurd h (not_lt.mpr hgt)⟩
    rw [classify_confidence]
    refine le_trans (cappedScore_le text) ?_
    rw [bestScored_score]
    exact hgt

/-- Claim C6, witness: on `"rti complaint"` the RTI and complaint categories
both score `0.72`; the cap fires and the reported confidence is `0.6`. -/
theorem c6_witness : (classifyIntentDetailed "rti complaint").confidence = 0.6 :=
  (c6_ambiguity_cap "rti complaint"
      (by rw [bestRaw_rc, secondRaw_rc]; norm_num)).2
    (by rw [bestRaw_rc]; norm_num)

/-! ## Claim C7 -/

/-- Claim C7: when the best raw category score is below the `0.3` floor, the
classifier returns `UNKNOWN` with confidence `0` (any nonzero score is at
least `0.52`, so a sub-floor best score is necessarily `0`). -/
theorem c7_unknown_floor (text : String) (hlow : bestRawScore text < 0.3) :
    (classifyIntentDetailed text).intent = IntentType.unknown ∧
      (classifyIntentDetailed text).confidence = 0 := by
  have hbest0 : (bestScored text).score = 0 := by
    rcases bestScored_score_cases text with h | ⟨h1, _⟩
    · exact h
    · rw [bestScored_score] at h1
      linarith
  have hcap : cappedScore text = 0 := by
    refine le_antisymm ?_ (cappedScore_nonneg text)
    rw [← hbest0]
    exact cappedScore_le text
  constructor
  · rw [classify_unknown_iff, classify_confidence, hcap]
    norm_num
  · rw [classify_confidence, hcap]

/-- Claim C7, witness: the theorem applied to the empty input, whose best
raw score is `0 < 0.3`. -/
theorem c7_witness :
    (classifyIntentDetailed "").intent = IntentType.unknown ∧
      (classifyIntentDetailed "").confidence = 0 :=
  c7_unknown_floor "" (by rw [bestRaw_empty]; norm_num)

/-! ## Claim C8 -/

/-- Claim C8, counterexample: on the empty input the rule engine does return
`UNKNOWN` with confidence `0`, but escalation still happens - the decision
path of the run contains both the spaCy step and the DistilBERT-invocation
step (confidence `0 < 0.70` triggers the semantic stage). -/
theorem c8_counterexample :
    classifyIntent "" = (IntentType.unknown, 0) ∧
    ∃ res, runInference constExt "" = some res ∧
      PathStep.spacyNLP ∈ res.decisionPath ∧
      PathStep.distilbertInvoked ∈ res.decisionPath := by
  refine ⟨classify_empty, _, runInference_empty, spacy_mem_body _ _ _, ?_⟩
  rw [invoked_mem_body_iff]
  exact shouldUseNlp_true (by rw [preSem_empty]; norm_num)

/-- Claim C8 (amended): empty or whitespace-only input classifies as
`UNKNOWN` with confidence `0`, but the pipeline still escalates: the spaCy
entity-extraction step always runs, and the DistilBERT semantic stage is
invoked because the confidence `0` is below the `0.70` gate. -/
theorem c8_ws_unknown_but_escalates (text : String)
    (hws : ∀ c ∈ text.data, isPySpace c = true) :
    classifyIntent text = (IntentType.unknown, 0) ∧
    ∀ ext : ExternalNLP, ∃ res, runInference ext text = some res ∧
      PathStep.spacyNLP ∈ res.decisionPath ∧
      PathStep.distilbertInvoked ∈ res.decisionPath := by
  have hcl := classify_ws hws
  refine ⟨hcl, fun ext => ⟨inferenceBody ext text .unknown, ?_, spacy_mem_body _ _ _, ?_⟩⟩
  · unfold runInference
    rw [hcl]
    rfl
  · rw [invoked_mem_body_iff]
    apply shouldUseNlp_true
    rw [preSemantic_unknown (by rw [hcl]), hcl]
    norm_num

/-- Claim C8, witness: the amended theorem applied to the whitespace-only
input `" "` with the constant external valuation. -/
theorem c8_witness :
    classifyIntent " " = (IntentType.unknown, 0) ∧
    ∃ res, runInference constExt " " = some res ∧
      PathStep.spacyNLP ∈ res.decisionPath ∧
      PathStep.distilbertInvoked ∈ res.decisionPath := by
  have h := c8_ws_unknown_but_escalates " " (by decide)
  exact ⟨h.1, h.2 constExt⟩

/-! ## Claim C9 -/

/-- Claim C9: every bracketed uppercase placeholder of the draft occurs
verbatim in the text returned by `enhance_draft_text`, for every possible
LLM output; and whenever some placeholder is missing from the LLM output,
the enhancement is rejected and the returned text is the original draft. -/
theorem c9_placeholders_preserved (draft : List Char) (llm : Option (List Char)) :
    (∀ ph ∈ findPlaceholders draft,
      containsSub (bracketed ph) (enhanceDraftText draft llm).enhancedText = true) ∧
    (∀ out, llm = some out →
      (∃ ph ∈ findPlaceholders draft, containsSub (bracketed ph) out = false) →
      (enhanceDraftText draft llm).enhancedText = draft) := by
  match llm with
  | none =>
    constructor
    · intro ph hm
      exact containsSub_of_occursIn (findPlaceholders_occurs hm)
    · intro out h
      cases h
  | some out =>
    have hred : enhanceDraftText draft (some out) =
        (if (findPlaceholders draft).any (fun ph => !containsSub (bracketed ph) out) then
            ⟨draft, draft, false, true⟩
          else ⟨draft, out, true, false⟩ : EnhancementResult) := rfl
    rw [hred]
    by_cases hany :
        (findPlaceholders draft).any (fun ph => !containsSub (bracketed ph) out) = true
    · rw [if_pos hany]
      constructor
      · intro ph hm
        exact containsSub_of_occursIn (findPlaceholders_occurs hm)
      · intro _ _ _
        rfl
    · rw [if_neg hany]
      rw [Bool.not_eq_true, List.any_eq_false] at hany
      constructor
      · intro ph hm
        simpa using hany ph hm
      · intro out2 hout2 hex
        obtain rfl : out2 = out := by
          injection hout2 with h
          exact h.symm
        obtain ⟨ph, hph, hmiss⟩ := hex
        have hc : containsSub (bracketed ph) out2 = true := by
          simpa using hany ph hph
        rw [hc] at hmiss
        cases hmiss

/-- Claim C9, witness: the theorem applied to a concrete draft whose
placeholder `[NAME]` is dropped by the LLM output - the enhancement is
rejected and the draft is returned unchanged. -/
theorem c9_witness :
    (enhanceDraftText "Dear [NAME], case [CASE_ID]".data
        (some "polished text".data)).enhancedText
      = "Dear [NAME], case [CASE_ID]".data :=
  (c9_placeholders_preserved "Dear [NAME], case [CASE_ID]".data
      (some "polished text".data)).2 _ rfl
    ⟨"NAME".data, by decide, by decide⟩

/-! ## Claim C10 -/

/-- Claim C10: in RTI mode (`is_rti=true`), for every category (each
department entry and the general fallback designate a PIO), every state and
every optional district/area, `resolve_authority` selects the Public
Information Officer as primary authority with confidence fixed at `0.95`. -/
theorem c10_rti_pio_primary (category state : String) (district area : Option String)
    (ents : Option String) :
    ∃ m : AuthorityMatch,
      (resolveAuthority category state district area true ents).primary = some m ∧
      m.confidence = 0.95 ∧ m.isPrimary = true ∧
      m.authority.name = "Public Information Officer" := by
  obtain ⟨pio, hpio, hname⟩ := pio_lookup (String.mk (stripWs (lowerStr category.data)))
  refine ⟨⟨withAddress pio state.data (district.map (·.data)) (area.map (·.data)), 0.95,
    "PIO is the designated officer for RTI applications", true⟩, ?_, rfl, rfl, hname⟩
  show (resolveAuthority category state district area true ents).primary = _
  simp only [resolveAuthority]
  rw [hpio]
  simp only [Option.isSome_some, Bool.and_self, if_true, List.singleton_append,
    List.cons_append]
  rw [List.find?_cons_of_pos _ rfl]

/-- Claim C10, witness: the theorem applied at the concrete request
`category="electricity", state="Rajasthan"` in RTI mode. -/
theorem c10_witness :
    ∃ m : AuthorityMatch,
      (resolveAuthority "electricity" "Rajasthan" none none true none).primary = some m ∧
      m.confidence = 0.95 ∧ m.isPrimary = true ∧
      m.authority.name = "Public Information Officer" :=
  c10_rti_pio_primary "electricity" "Rajasthan" none none none

end RTIGen
